import Mathlib

/-!
Verification of the fastpg data-access layer (condition builder, lazy query
executor and result shaping) against its specification.

The Python sources are shallowly embedded: Python dictionaries become
association lists, keyword-argument mappings become ordered lists of
key/value pairs, `None`-or-string attributes become `Option String`, and the
asynchronous entry points become pure functions that take the data the
database connection would return and report whether the connection was
contacted.  Two generations of the condition builder exist in the repository
(`test_project/fastpg/utils.py` and `src/fastpg/utils.py`); both are
embedded.
-/

namespace FastPG

mutual
/-- Python runtime values as they occur in query parameters and fetched rows.
Lists and dictionaries are represented by the mutually inductive `PList` and
`PDict` so that decidable equality can be derived. -/
inductive PVal where
  | pnone : PVal
  | pint : Int → PVal
  | pstr : String → PVal
  | pbool : Bool → PVal
  | plist : PList → PVal
  | pdict : PDict → PVal
deriving DecidableEq, Repr

/-- A Python list of `PVal`s. -/
inductive PList where
  | nil : PList
  | cons : PVal → PList → PList
deriving DecidableEq, Repr

/-- A Python dictionary with string keys (insertion ordered). -/
inductive PDict where
  | nil : PDict
  | cons : String → PVal → PDict → PDict
deriving DecidableEq, Repr
end

/-- Convert a Lean list of values to the embedded Python list. -/
def PList.ofList : List PVal → PList
  | [] => PList.nil
  | x :: xs => PList.cons x (PList.ofList xs)

/-- Convert the embedded Python list back to a Lean list. -/
def PList.toList : PList → List PVal
  | PList.nil => []
  | PList.cons x xs => x :: PList.toList xs

/-- Length of an embedded Python list. -/
def PList.length : PList → Nat
  | PList.nil => 0
  | PList.cons _ xs => Nat.succ (PList.length xs)

/-- A fetched database row / Python dict, as an association list from column
name to value (Python dicts are insertion ordered with unique keys). -/
abbrev Row : Type := List (String × PVal)

/-- Convert a row to an embedded Python dictionary value. -/
def PDict.ofRow : Row → PDict
  | [] => PDict.nil
  | (k, v) :: rest => PDict.cons k v (PDict.ofRow rest)

/-- `record[k]`.  In Python a missing key raises `KeyError`; the rows reaching
the embedded code always carry the looked-up keys, so a missing key defaults
to `None` here. -/
def rowGet (r : Row) (k : String) : PVal :=
  match r.find? (fun p => decide (p.1 = k)) with
  | some p => p.2
  | Option.none => PVal.pnone

/-- `k in record` for a Python dict. -/
def rowHasKey (r : Row) (k : String) : Bool :=
  r.any (fun p => decide (p.1 = k))

/-- `record[k] = v` for a Python dict: overwrite the existing entry in place,
otherwise append the new key at the end (insertion order). -/
def rowSetItem (r : Row) (k : String) (v : PVal) : Row :=
  if rowHasKey r k then r.map (fun p => if p.1 = k then (k, v) else p)
  else r ++ [(k, v)]

/-- The keys of a row, in order. -/
def rowKeys (r : Row) : List String := r.map Prod.fst

/-- Python truthiness (`bool(v)`): `None`, `0`, the empty string, the empty
list and the empty dict are falsy. -/
def PVal.truthy : PVal → Bool
  | PVal.pnone => false
  | PVal.pint n => decide (n ≠ 0)
  | PVal.pstr s => decide (s ≠ "")
  | PVal.pbool b => b
  | PVal.plist PList.nil => false
  | PVal.plist (PList.cons _ _) => true
  | PVal.pdict PDict.nil => false
  | PVal.pdict (PDict.cons _ _ _) => true

/-- `isinstance(v, list)`. -/
def PVal.isList : PVal → Bool
  | PVal.plist _ => true
  | _ => false

/-- `type(v).__name__` for the embedded values. -/
def PVal.pyTypeName : PVal → String
  | PVal.pnone => "NoneType"
  | PVal.pint _ => "int"
  | PVal.pstr _ => "str"
  | PVal.pbool _ => "bool"
  | PVal.plist _ => "list"
  | PVal.pdict _ => "dict"

mutual
/-- Python `repr(v)` (as used by `str` on containers). -/
def PVal.pyRepr : PVal → String
  | PVal.pnone => "None"
  | PVal.pint n => toString n
  | PVal.pstr s => "\x27" ++ s ++ "\x27"
  | PVal.pbool true => "True"
  | PVal.pbool false => "False"
  | PVal.plist xs => "[" ++ PList.pyReprElems xs ++ "]"
  | PVal.pdict m => "\x7b" ++ PDict.pyReprElems m ++ "\x7d"

/-- Comma separated element reprs of a Python list. -/
def PList.pyReprElems : PList → String
  | PList.nil => ""
  | PList.cons x PList.nil => PVal.pyRepr x
  | PList.cons x (PList.cons y ys) =>
      PVal.pyRepr x ++ ", " ++ PList.pyReprElems (PList.cons y ys)

/-- Comma separated entry reprs of a Python dict. -/
def PDict.pyReprElems : PDict → String
  | PDict.nil => ""
  | PDict.cons k v PDict.nil => "\x27" ++ k ++ "\x27: " ++ PVal.pyRepr v
  | PDict.cons k v (PDict.cons k2 v2 m) =>
      "\x27" ++ k ++ "\x27: " ++ PVal.pyRepr v ++ ", " ++
        PDict.pyReprElems (PDict.cons k2 v2 m)
end

/-- Python `str(v)` / f-string interpolation `f"...{v}..."`. -/
def PVal.pyStr : PVal → String
  | PVal.pstr s => s
  | v => PVal.pyRepr v

mutual
/-- `json.dumps(v)` (string escaping is not modelled; the embedded strings
never need it). -/
def PVal.pyJson : PVal → String
  | PVal.pnone => "null"
  | PVal.pint n => toString n
  | PVal.pstr s => "\"" ++ s ++ "\""
  | PVal.pbool true => "true"
  | PVal.pbool false => "false"
  | PVal.plist xs => "[" ++ PList.pyJsonElems xs ++ "]"
  | PVal.pdict m => "\x7b" ++ PDict.pyJsonElems m ++ "\x7d"

/-- Comma separated JSON renderings of list elements. -/
def PList.pyJsonElems : PList → String
  | PList.nil => ""
  | PList.cons x PList.nil => PVal.pyJson x
  | PList.cons x (PList.cons y ys) =>
      PVal.pyJson x ++ ", " ++ PList.pyJsonElems (PList.cons y ys)

/-- Comma separated JSON renderings of dict entries. -/
def PDict.pyJsonElems : PDict → String
  | PDict.nil => ""
  | PDict.cons k v PDict.nil => "\"" ++ k ++ "\": " ++ PVal.pyJson v
  | PDict.cons k v (PDict.cons k2 v2 m) =>
      "\"" ++ k ++ "\": " ++ PVal.pyJson v ++ ", " ++
        PDict.pyJsonElems (PDict.cons k2 v2 m)
end

/-- Python `pat in s` on character lists: is `pat` a contiguous substring? -/
def containsSub (pat : List Char) : List Char → Bool
  | [] => pat.isEmpty
  | c :: rest => pat.isPrefixOf (c :: rest) || containsSub pat rest

/-- Fuel-driven worker for Python `s.replace(pat, rep)`: replace every
non-overlapping occurrence of `pat`, scanning left to right.  One unit of
fuel is spent per scanning step, so fuel equal to the input length is always
enough for a non-empty pattern. -/
def replaceSubAux (pat rep : List Char) : Nat → List Char → List Char
  | 0, l => l
  | _ + 1, [] => []
  | fuel + 1, c :: rest =>
      if pat.isPrefixOf (c :: rest) then
        rep ++ replaceSubAux pat rep fuel ((c :: rest).drop pat.length)
      else c :: replaceSubAux pat rep fuel rest

/-- Python `s.replace(pat, rep)` on strings (pattern assumed non-empty, as it
always is in the embedded code). -/
def stringReplace (s pat rep : String) : String :=
  String.mk (replaceSubAux pat.data rep.data s.data.length s.data)

/-- Worker for Python `s.split(pat, 1)`: find the first occurrence of `pat`
and return the pieces before and after it, or `none` if absent. -/
def splitFirstAux (pat : List Char) : List Char → Option (List Char × List Char)
  | [] => Option.none
  | c :: rest =>
      if pat.isPrefixOf (c :: rest) then some ([], (c :: rest).drop pat.length)
      else (splitFirstAux pat rest).map (fun pr => (c :: pr.1, pr.2))

/-- Python `s.split(pat, 1)` on strings, as an optional pair. -/
def splitFirstString (pat s : String) : Option (String × String) :=
  (splitFirstAux pat.data s.data).map (fun pr => (String.mk pr.1, String.mk pr.2))

/-- The exceptions raised synchronously while building a query (from
`errors.py`), each carrying its message. -/
inductive BuildError where
  | unsupportedOperator (message : String)
  | invalidINClauseValue (message : String)
  | unrestrictedUpdate (message : String)
  | unrestrictedDelete (message : String)
  | nothingToCreate (message : String)
  | pyTypeError (message : String)
deriving DecidableEq, Repr

/-- Decidable equality for `Except`, so that concrete builder outcomes can be
settled by `decide`. -/
instance {ε α : Type} [DecidableEq ε] [DecidableEq α] : DecidableEq (Except ε α) := fun a b =>
  match a, b with
  | Except.error e, Except.error f =>
      if h : e = f then isTrue (by rw [h])
      else isFalse (by intro hc; cases hc; exact h rfl)
  | Except.error _, Except.ok _ => isFalse (by intro hc; cases hc)
  | Except.ok _, Except.error _ => isFalse (by intro hc; cases hc)
  | Except.ok x, Except.ok y =>
      if h : x = y then isTrue (by rw [h])
      else isFalse (by intro hc; cases hc; exact h rfl)

/-- The `OPERATORS` table of `constants.py` (identical in both generations of
the library), as an ordered association list. -/
def OPERATORS : List (String × String) :=
  [("gt", ">"), ("lt", "<"), ("gte", ">="), ("lte", "<="), ("ne", "!="),
   ("in", "IN"), ("isnull", "IS NULL"), ("contains", "LIKE"),
   ("icontains", "ILIKE"), ("startswith", "LIKE"), ("istartswith", "ILIKE"),
   ("endswith", "LIKE"), ("iendswith", "ILIKE")]

/-- `OPERATORS[op]`, or `none` for a `KeyError`. -/
def lookupOperator (op : String) : Option String :=
  (OPERATORS.find? (fun p => decide (p.1 = op))).map Prod.snd

/-- `", ".join(OPERATORS.keys())`, used in error messages. -/
def operatorOptions : String := ", ".intercalate (OPERATORS.map Prod.fst)

/-- A built condition (`Q` object): the rendered boolean expression with
named placeholders, together with its parameter map. -/
structure Cond where
  where_clause : String
  params : List (String × PVal)
deriving DecidableEq, Repr

/-- Alias routing performed at `Q.__init__` time when a relation is given:
if the relation key (`related_name + "__"`) occurs in the keyword name, every
occurrence is replaced by the related-table alias `r.`; otherwise the
base-table alias `t.` is prepended.  Without a relation, `t.` is always
prepended. -/
def routeKey (relKey : Option String) (key : String) : String :=
  match relKey with
  | Option.none => "t." ++ key
  | some rk =>
      if containsSub rk.data key.data then stringReplace key rk "r." else "t." ++ key

/-- The `:name_0, :name_1, ...` placeholder list rendered for an `IN` clause
with `n` elements. -/
def inPlaceholders (fieldName : String) (n : Nat) : List String :=
  (List.range n).map (fun i => ":" ++ fieldName ++ "_" ++ toString i)

/-- The parameter entries bound for an `IN` clause, one per element in
order. -/
def inParams (fieldName : String) (xs : List PVal) : List (String × PVal) :=
  xs.enum.map (fun p => (fieldName ++ "_" ++ toString p.1, p.2))

/-- Wildcard wrapping applied to the value of a `LIKE`/`ILIKE` operator
(`contains` wraps both sides, `startswith` appends, `endswith` prepends). -/
def likeWrap (op : String) (value : PVal) : String :=
  if op = "contains" ∨ op = "icontains" then "%" ++ value.pyStr ++ "%"
  else if op = "startswith" ∨ op = "istartswith" then value.pyStr ++ "%"
  else if op = "endswith" ∨ op = "iendswith" then "%" ++ value.pyStr
  else value.pyStr

/-- One iteration of the keyword loop in `Q.__init__`
(`test_project/fastpg/utils.py`): route the key, split off the operator
suffix, and render one condition fragment plus its parameter bindings. -/
def processItem (relKey : Option String) (secret fieldIdx : Nat)
    (key : String) (value : PVal) :
    Except BuildError (String × List (String × PVal)) :=
  let key1 := routeKey relKey key
  match splitFirstString "__" key1 with
  | some (field, op) =>
    let fieldName :=
      stringReplace (field ++ "_" ++ toString fieldIdx ++ "_" ++ toString secret) "." "_"
    match lookupOperator op with
    | Option.none =>
        Except.error (BuildError.unsupportedOperator
          ("Unsupported operator: \"" ++ op ++ "\". Options are: " ++ operatorOptions ++
            ". If \"" ++ field ++
            "\" is a related field, use `filter_related()` to add where clauses for the related field."))
    | some operator =>
      if operator = "IN" then
        match value with
        | PVal.plist xs =>
          if PList.length xs = 0 then
            Except.error (BuildError.invalidINClauseValue
              ("IN clause value for \"" ++ field ++
                "\" must be supplied with a non-empty \"list\"."))
          else
            Except.ok
              (field ++ " IN (" ++
                  ",".intercalate (inPlaceholders fieldName (PList.length xs)) ++ ")",
                inParams fieldName (PList.toList xs))
        | _ =>
          Except.error (BuildError.invalidINClauseValue
            ("IN clause value for \"" ++ field ++
              "\" must be supplied with a \"list\" type and not \"" ++
              value.pyTypeName ++ "\" type."))
      else if operator = "IS NULL" then
        Except.ok ((if value.truthy then field ++ " IS NULL" else field ++ " IS NOT NULL"), [])
      else if operator = "ILIKE" ∨ operator = "LIKE" then
        Except.ok (field ++ " " ++ operator ++ " :" ++ fieldName,
          [(fieldName, PVal.pstr (likeWrap op value))])
      else
        Except.ok (field ++ " " ++ operator ++ " :" ++ fieldName, [(fieldName, value)])
  | Option.none =>
      let fieldName :=
        stringReplace (key1 ++ "_" ++ toString fieldIdx ++ "_" ++ toString secret) "." "_"
      Except.ok (key1 ++ " = :" ++ fieldName, [(fieldName, value)])

/-- Accumulator of the keyword loop in `Q.__init__`: the 1-based field index,
the condition fragments, and the parameter dict. -/
structure BuildState where
  fieldIdx : Nat
  conditions : List String
  params : List (String × PVal)
deriving DecidableEq, Repr

/-- The keyword loop of `Q.__init__`: process the items in order, stopping at
the first raised error. -/
def qBuildAux (relKey : Option String) (secret : Nat) :
    BuildState → List (String × PVal) → Except BuildError BuildState
  | st, [] => Except.ok st
  | st, (k, v) :: rest =>
    let idx := st.fieldIdx + 1
    match processItem relKey secret idx k v with
    | Except.error e => Except.error e
    | Except.ok cp =>
        qBuildAux relKey secret
          ⟨idx, st.conditions ++ [cp.1],
            cp.2.foldl (fun acc p => rowSetItem acc p.1 p.2) st.params⟩ rest

/-- `Q(relation=..., **kwargs)` from `test_project/fastpg/utils.py`:
`relation` is the relation's declared result-set name (`related_name`), from
which the constructor derives `relation_key = related_name + "__"`; `secret`
stands for the `random.randint(0, 9999)` discriminator. -/
def qBuild (relation : Option String) (secret : Nat)
    (kwargs : List (String × PVal)) : Except BuildError Cond :=
  let relKey := relation.map (fun rn => rn ++ "__")
  match qBuildAux relKey secret ⟨0, [], []⟩ kwargs with
  | Except.error e => Except.error e
  | Except.ok st => Except.ok ⟨" AND ".intercalate st.conditions, st.params⟩

/-- One entry of `{**a, **b}`: an entry of `a` keeps its position, taking
`b`'s value when `b` also binds the key. -/
def pyOverride (b : List (String × PVal)) (p : String × PVal) : String × PVal :=
  match b.find? (fun q => decide (q.1 = p.1)) with
  | some q => (p.1, q.2)
  | Option.none => p

/-- Python `{**a, **b}` on insertion-ordered dicts represented as association
lists: `a`'s keys in place (values overridden by `b` where both bind), then
`b`'s new keys. -/
def pyMerge (a b : List (String × PVal)) : List (String × PVal) :=
  a.map (pyOverride b) ++ b.filter (fun q => !(a.any (fun p => decide (p.1 = q.1))))

/-- `Q.__and__`: parenthesize the two operand expressions around `AND` and
merge the parameter maps. -/
def Cond.and (a b : Cond) : Cond :=
  ⟨"(" ++ a.where_clause ++ " AND " ++ b.where_clause ++ ")", pyMerge a.params b.params⟩

/-- `Q.__or__`: parenthesize the two operand expressions around `OR` and
merge the parameter maps. -/
def Cond.or (a b : Cond) : Cond :=
  ⟨"(" ++ a.where_clause ++ " OR " ++ b.where_clause ++ ")", pyMerge a.params b.params⟩

/-- The key set of a parameter map. -/
def keySet (m : List (String × PVal)) : Finset String :=
  (m.map Prod.fst).toFinset

/-- One iteration of the keyword loop in the legacy `Q.__init__`
(`src/fastpg/utils.py`): no alias routing, the parameter name carries only
the discriminator (no field index), and — unlike the current generation —
an `IN` value that is a list is rendered without an emptiness check. -/
def processItemLegacy (secret : Nat) (key : String) (value : PVal) :
    Except BuildError (String × List (String × PVal)) :=
  match splitFirstString "__" key with
  | some (field, op) =>
    let fieldName := field ++ "_" ++ toString secret
    match lookupOperator op with
    | Option.none =>
        Except.error (BuildError.unsupportedOperator
          ("Unsupported operator: " ++ op ++ ". Options are: " ++ operatorOptions))
    | some operator =>
      if operator = "IN" then
        match value with
        | PVal.plist xs =>
            Except.ok
              (field ++ " IN (" ++
                  ",".intercalate (inPlaceholders fieldName (PList.length xs)) ++ ")",
                inParams fieldName (PList.toList xs))
        | _ =>
          Except.error (BuildError.invalidINClauseValue
            ("IN clause value for \"" ++ field ++
              "\" must be supplied with a \"list\" type and not \"" ++
              value.pyTypeName ++ "\" type"))
      else if operator = "IS NULL" then
        Except.ok ((if value.truthy then field ++ " IS NULL" else field ++ " IS NOT NULL"), [])
      else if operator = "ILIKE" ∨ operator = "LIKE" then
        Except.ok (field ++ " " ++ operator ++ " :" ++ fieldName,
          [(fieldName, PVal.pstr (likeWrap op value))])
      else
        Except.ok (field ++ " " ++ operator ++ " :" ++ fieldName, [(fieldName, value)])
  | Option.none =>
      let fieldName := key ++ "_" ++ toString secret
      Except.ok (key ++ " = :" ++ fieldName, [(fieldName, value)])

/-- The keyword loop of the legacy `Q.__init__`. -/
def qBuildLegacyAux (secret : Nat) :
    (List String × List (String × PVal)) → List (String × PVal) →
      Except BuildError (List String × List (String × PVal))
  | st, [] => Except.ok st
  | st, (k, v) :: rest =>
    match processItemLegacy secret k v with
    | Except.error e => Except.error e
    | Except.ok cp =>
        qBuildLegacyAux secret
          (st.1 ++ [cp.1], cp.2.foldl (fun acc p => rowSetItem acc p.1 p.2) st.2) rest

/-- `Q(**kwargs)` from the legacy `src/fastpg/utils.py`. -/
def qBuildLegacy (secret : Nat) (kwargs : List (String × PVal)) :
    Except BuildError Cond :=
  match qBuildLegacyAux secret ([], []) kwargs with
  | Except.error e => Except.error e
  | Except.ok st => Except.ok ⟨" AND ".intercalate st.1, st.2⟩

/-- The relation metadata attached to a model (`Relation` in `utils.py`):
the related table, its field names, the joining fields and the declared
result-set name. -/
structure RelationMeta where
  table : String
  model_fields : List String
  foreign_field : String
  related_id_field : String
  related_name : String
deriving DecidableEq, Repr

/-- `Relation.render_on_clause`. -/
def RelationMeta.renderOnClause (rel : RelationMeta) : String :=
  "t." ++ rel.foreign_field ++ " = r." ++ rel.related_id_field

/-- A resolved prefetch descriptor (`Prefetch` after `prefetch_related` has
filled in the foreign and id fields from the matching relation). -/
structure PrefetchMeta where
  dataset_name : String
  foreign_field : String
  id_field : String
deriving DecidableEq, Repr

/-- The action selected on an `AsyncQuerySet`. -/
inductive Action where
  | get | filter | all | count | update | delete
deriving DecidableEq, Repr

/-- The `ReturnType` constants. -/
inductive ReturnType where
  | modelInstance | dict
deriving DecidableEq, Repr

/-- The `self.records` attribute: `None` initially, a row list after a
fetch, or the integer returned by `execute` after an update/delete. -/
inductive Records where
  | none : Records
  | rows : List Row → Records
  | count : Int → Records
deriving DecidableEq, Repr

/-- The mutable state of an `AsyncQuerySet` instance (`core.py`), with
Python `None`-or-`str` attributes embedded as `Option String` and so on.
The `where_conditions` attribute is initialised to the empty string by
`__init__`, never to `None`. -/
structure QuerySetState where
  modelName : String
  table : String
  primaryKey : String
  model_fields : List String
  columns_to_fetch : List String
  action : Option Action
  base_query : Option String
  query : Option String
  query_executed : Bool
  conditions : List Cond
  where_conditions : Option String
  query_param_values : List (String × PVal)
  related_conditions : List Cond
  related_where_conditions : String
  related_query_param_values : List (String × PVal)
  fetch_limit : Option Int
  fetch_offset : Option Int
  order_by_fields : Option (List (String × String))
  records : Records
  run_select_related : Bool
  relation : Option RelationMeta
  run_prefetch_related : Bool
  prefetches : List PrefetchMeta
  update_clause : Option String
  return_type : ReturnType
deriving DecidableEq, Repr

/-- `AsyncQuerySet.__init__`: the initial state for a model with the given
table, primary key and field names.  Note `where_conditions` starts as the
empty string (truthy-wise "no condition", but not `None`). -/
def initQuerySet (modelName table primaryKey : String)
    (modelFields : List String) : QuerySetState :=
  { modelName := modelName, table := table, primaryKey := primaryKey,
    model_fields := modelFields, columns_to_fetch := modelFields,
    action := Option.none, base_query := Option.none, query := Option.none,
    query_executed := false, conditions := [],
    where_conditions := some "", query_param_values := [],
    related_conditions := [], related_where_conditions := "",
    related_query_param_values := [],
    fetch_limit := Option.none, fetch_offset := Option.none,
    order_by_fields := Option.none, records := Records.none,
    run_select_related := false, relation := Option.none,
    run_prefetch_related := false, prefetches := [],
    update_clause := Option.none, return_type := ReturnType.modelInstance }

/-- `functools.reduce(lambda x, y: x & y, conditions)`: an empty list raises
`TypeError` in Python. -/
def reduceConditions (conds : List Cond) : Except BuildError Cond :=
  match conds with
  | [] => Except.error (BuildError.pyTypeError
      "reduce() of empty iterable with no initial value")
  | c :: rest => Except.ok (rest.foldl Cond.and c)

/-- `AsyncQuerySet._reduce_conditions`: append the keyword condition (if
any), extend with the positional `Q` objects, and reduce with AND.  Returns
the updated condition list together with the reduced condition. -/
def applyConditionArgs (s : QuerySetState) (secret : Nat) (args : List Cond)
    (kwargs : List (String × PVal)) :
    Except BuildError (QuerySetState × Cond) := do
  let conds1 ←
    if kwargs.isEmpty then pure s.conditions
    else do
      let q ← qBuild Option.none secret kwargs
      pure (s.conditions ++ [q])
  let conds := conds1 ++ args
  let all ← reduceConditions conds
  pure ({ s with conditions := conds }, all)

/-- `SELECT <cols> FROM <table> t`, as assembled by `get`/`filter`/`all`. -/
def baseSelect (s : QuerySetState) : String :=
  "SELECT " ++ ",".intercalate s.columns_to_fetch ++ " FROM " ++ s.table ++ " t"

/-- `AsyncQuerySet.get(*args, **kwargs)`. -/
def getAction (s : QuerySetState) (secret : Nat) (args : List Cond)
    (kwargs : List (String × PVal)) : Except BuildError QuerySetState := do
  let p ← applyConditionArgs s secret args kwargs
  pure { p.1 with
    action := some Action.get, base_query := some (baseSelect s),
    where_conditions := some p.2.where_clause, query_param_values := p.2.params }

/-- `AsyncQuerySet.filter(*args, **kwargs)`. -/
def filterAction (s : QuerySetState) (secret : Nat) (args : List Cond)
    (kwargs : List (String × PVal)) : Except BuildError QuerySetState := do
  let p ← applyConditionArgs s secret args kwargs
  pure { p.1 with
    action := some Action.filter, base_query := some (baseSelect s),
    where_conditions := some p.2.where_clause, query_param_values := p.2.params }

/-- `AsyncQuerySet.all()`: resets the WHERE clause to the empty string. -/
def allAction (s : QuerySetState) : QuerySetState :=
  { s with
    action := some Action.all, base_query := some (baseSelect s),
    where_conditions := some "", query_param_values := [] }

/-- `AsyncQuerySet.count()`. -/
def countAction (s : QuerySetState) : QuerySetState :=
  { s with
    action := some Action.count, run_select_related := false,
    base_query := some ("SELECT count(" ++ s.primaryKey ++ ") FROM " ++
      s.table ++ " t") }

/-- `AsyncQuerySet.limit(n)`. -/
def limitMethod (s : QuerySetState) (n : Int) : QuerySetState :=
  { s with fetch_limit := some n }

/-- `AsyncQuerySet.offset(n)`. -/
def offsetMethod (s : QuerySetState) (n : Int) : QuerySetState :=
  { s with fetch_offset := some n }

/-- `AsyncQuerySet.order_by(**kwargs)`. -/
def orderByMethod (s : QuerySetState) (ob : List (String × String)) : QuerySetState :=
  { s with order_by_fields := some ob }

/-- The `RENDER_UPDATE_SUFFIXES` table of `constants.py`: arithmetic and
interval update renderings, embedding the value into the SQL text. -/
def renderUpdateSuffix (op field : String) (value : PVal) : Option String :=
  if op = "jsonb_remove" then some (field ++ "=" ++ field ++ " - \x27" ++ value.pyStr ++ "\x27")
  else if op = "add" then some (field ++ "=" ++ field ++ " + " ++ value.pyStr)
  else if op = "sub" then some (field ++ "=" ++ field ++ " - " ++ value.pyStr)
  else if op = "mul" then some (field ++ "=" ++ field ++ " * " ++ value.pyStr)
  else if op = "div" then some (field ++ "=" ++ field ++ " / " ++ value.pyStr)
  else if op = "add_time" then some (field ++ "=" ++ field ++ " + interval \x27" ++ value.pyStr ++ "\x27")
  else if op = "sub_time" then some (field ++ "=" ++ field ++ " - interval \x27" ++ value.pyStr ++ "\x27")
  else Option.none

/-- The keys of `RENDER_UPDATE_SUFFIXES`, in order, for error messages. -/
def updateSuffixKeys : List String :=
  ["jsonb_remove", "add", "sub", "mul", "div", "add_time", "sub_time"]

/-- The unsupported-update-operator message. -/
def invalidUpdateOpMessage (op : String) : String :=
  "Invalid operation \"" ++ op ++ "\" in update. Options are jsonb, jsonb_set, " ++
    ", ".intercalate updateSuffixKeys

/-- One iteration of the keyword loop in `AsyncQuerySet.update`: render one
SET fragment and the parameters it binds. -/
def updateItem (key : String) (value : PVal) :
    Except BuildError (String × List (String × PVal)) :=
  match splitFirstString "__" key with
  | some (field, op) =>
    match renderUpdateSuffix op field value with
    | some clause => Except.ok (clause, [])
    | Option.none =>
      if op = "jsonb" then
        Except.ok (field ++ "=:set_" ++ field,
          [("set_" ++ field, PVal.pstr value.pyJson)])
      else
        match splitFirstString "__" op with
        | some (op0, rest) =>
          if op0 = "jsonb_set" then
            let fieldToUpdate :=
              match splitFirstString "__" rest with
              | some p => p.1
              | Option.none => rest
            Except.ok (field ++ "=jsonb_set(" ++ field ++ ", \x27\x7b" ++ fieldToUpdate ++
                "\x7d\x27, :set_" ++ fieldToUpdate ++ ", true)",
              [("set_" ++ fieldToUpdate, PVal.pstr value.pyJson)])
          else Except.error (BuildError.unsupportedOperator (invalidUpdateOpMessage op))
        | Option.none =>
          if op = "jsonb_set" then
            Except.error (BuildError.unsupportedOperator
              "Missing jsonb key name for operation \"jsonb_set\" in update")
          else Except.error (BuildError.unsupportedOperator (invalidUpdateOpMessage op))
  | Option.none =>
      Except.ok (key ++ "=:set_" ++ key, [("set_" ++ key, value)])

/-- `AsyncQuerySet.update(**kwargs)`: the unrestricted-update guard compares
`where_conditions` against `None` (not against the empty string), then the
SET clause is rendered and the parameters are added to the query parameter
dict. -/
def updateMethod (s : QuerySetState) (kwargs : List (String × PVal)) :
    Except BuildError QuerySetState :=
  if s.where_conditions = Option.none then
    Except.error (BuildError.unrestrictedUpdate
      "Where clause conditions must be provided to update items in database")
  else
    match kwargs.foldlM
        (fun (acc : List String × List (String × PVal)) kv => do
          let r ← updateItem kv.1 kv.2
          pure (acc.1 ++ [r.1],
            r.2.foldl (fun m p => rowSetItem m p.1 p.2) acc.2))
        (([], s.query_param_values) : List String × List (String × PVal)) with
    | Except.error e => Except.error e
    | Except.ok acc =>
        Except.ok { s with
          action := some Action.update, run_select_related := false,
          update_clause := some (", ".intercalate acc.1),
          query_param_values := acc.2 }

/-- `AsyncQuerySet.delete()`: the unrestricted-delete guard, like the update
guard, compares `where_conditions` against `None` only. -/
def deleteMethod (s : QuerySetState) : Except BuildError QuerySetState :=
  if s.where_conditions = Option.none then
    Except.error (BuildError.unrestrictedDelete
      "Where clause conditions must be provided to delete items from database")
  else Except.ok { s with action := some Action.delete, run_select_related := false }

/-- f-string interpolation of a `str`-or-`None` attribute. -/
def pyOptStr (o : Option String) : String :=
  match o with
  | some s => s
  | Option.none => "None"

/-- Python truthiness of a `str`-or-`None` attribute. -/
def optStrTruthy (o : Option String) : Bool :=
  match o with
  | some s => decide (s ≠ "")
  | Option.none => false

/-- Python truthiness of an `int`-or-`None` attribute: both `None` and `0`
are falsy. -/
def optIntTruthy (o : Option Int) : Bool :=
  match o with
  | some n => decide (n ≠ 0)
  | Option.none => false

/-- Python truthiness of a dict-or-`None` attribute. -/
def optListTruthy (o : Option (List (String × String))) : Bool :=
  match o with
  | some l => !l.isEmpty
  | Option.none => false

/-- The SQL assembly of `AsyncQuerySet._execute_query`: base query, then
`WHERE`/`ORDER BY`/`LIMIT`/`OFFSET` appended only when the corresponding
attribute is truthy. -/
def renderSelectQuery (s : QuerySetState) : String :=
  let q0 :=
    if optStrTruthy s.where_conditions then
      pyOptStr s.base_query ++ " WHERE " ++ pyOptStr s.where_conditions
    else pyOptStr s.base_query
  let q1 :=
    if optListTruthy s.order_by_fields then
      q0 ++ " ORDER BY " ++
        ",".intercalate ((s.order_by_fields.getD []).map (fun p => p.1 ++ " " ++ p.2))
    else q0
  let q2 :=
    if optIntTruthy s.fetch_limit then q1 ++ " LIMIT " ++ toString (s.fetch_limit.getD 0)
    else q1
  if optIntTruthy s.fetch_offset then q2 ++ " OFFSET " ++ toString (s.fetch_offset.getD 0)
  else q2

/-- The SQL assembly of `AsyncQuerySet._execute_query_with_select_related`. -/
def renderSelectRelatedQuery (s : QuerySetState) (rel : RelationMeta) : String :=
  let mainFields := ",".intercalate (s.columns_to_fetch.map (fun f => "t." ++ f ++ " AS t_" ++ f))
  let relatedFields := ",".intercalate (rel.model_fields.map (fun f => "r." ++ f ++ " AS r_" ++ f))
  let q0 := "\n            SELECT " ++ mainFields ++ ", " ++ relatedFields ++
    "\n            FROM " ++ s.table ++ " t LEFT JOIN " ++ rel.table ++
    " r\n            ON " ++ rel.renderOnClause ++ "\n        "
  let q1 :=
    if optStrTruthy s.where_conditions then
      (q0 ++ "WHERE " ++ pyOptStr s.where_conditions) ++
        (if s.related_where_conditions ≠ "" then " AND " ++ s.related_where_conditions else "")
    else
      (if s.related_where_conditions ≠ "" then q0 ++ " WHERE " ++ s.related_where_conditions
        else q0)
  let q2 :=
    if optListTruthy s.order_by_fields then
      q1 ++ " ORDER BY " ++
        ",".intercalate ((s.order_by_fields.getD []).map (fun p => "t." ++ p.1 ++ " " ++ p.2))
    else q1
  let q3 :=
    if optIntTruthy s.fetch_limit then q2 ++ " LIMIT " ++ toString (s.fetch_limit.getD 0)
    else q2
  if optIntTruthy s.fetch_offset then q3 ++ " OFFSET " ++ toString (s.fetch_offset.getD 0)
  else q3

/-- The SQL assembly of `AsyncQuerySet._update`. -/
def renderUpdateQuery (s : QuerySetState) : String :=
  "\n                WITH updated AS (\n                    UPDATE " ++ s.table ++
  " t\n                    SET " ++ pyOptStr s.update_clause ++
  "\n                    WHERE " ++ pyOptStr s.where_conditions ++
  "\n                    RETURNING " ++ s.primaryKey ++
  " AS updated_id\n                ) SELECT COUNT(*) AS updated_count FROM updated;"

/-- The SQL assembly of `AsyncQuerySet._delete`. -/
def renderDeleteQuery (s : QuerySetState) : String :=
  "\n                WITH deleted AS (\n                    DELETE FROM " ++ s.table ++
  " t\n                    WHERE " ++ pyOptStr s.where_conditions ++
  "\n                    RETURNING " ++ s.primaryKey ++
  " AS deleted_id\n                ) SELECT COUNT(*) AS deleted_count FROM deleted;"

/-- The related sub-record `{f: record[f'r_{f}'] for f in relation.model_fields}`
attached by `_denormalize_related_data` when the join matched. -/
def relatedDict (rel : RelationMeta) (record : Row) : PVal :=
  PVal.pdict (PDict.ofRow
    (rel.model_fields.foldl
      (fun acc f => rowSetItem acc f (rowGet record ("r_" ++ f))) []))

/-- The body of the loop in `AsyncQuerySet._denormalize_related_data`: build
the base item from the `t_`-aliased columns, bind the related name to `None`,
and overwrite it with the related sub-record when the joined related-id
column is truthy. -/
def denormItem (columnsToFetch : List String) (rel : RelationMeta)
    (record : Row) : Row :=
  let relatedIdVal := rowGet record ("r_" ++ rel.related_id_field)
  let base := columnsToFetch.foldl
    (fun acc f => rowSetItem acc f (rowGet record ("t_" ++ f))) []
  let item := rowSetItem base rel.related_name PVal.pnone
  if relatedIdVal.truthy then
    rowSetItem item rel.related_name (relatedDict rel record)
  else item

/-- `AsyncQuerySet._denormalize_related_data`: one output record is built
per raw joined row — there is no grouping by base identity. -/
def denormalizeRelatedData (columnsToFetch : List String) (rel : RelationMeta)
    (records : List Row) : List Row :=
  records.map (denormItem columnsToFetch rel)

/-- `AsyncQuerySet._serialize_data`: constructing typed records is the
spec's external collaborator ("a typed record that can be constructed from a
plain field→value mapping and can produce one back"), so a constructed model
instance is represented by its field mapping itself, and the `DICT` branch
(`{**record}`) copies each mapping; both are the identity on the embedded
rows. -/
def serializeData (_s : QuerySetState) (records : List Row) : List Row :=
  records

/-- A driver exception: its Python type name, the optional `sqlstate`
attribute (absent on e.g. programming errors) and its message. -/
structure DriverError where
  name : String
  sqlstate : Option String
  message : String
deriving DecidableEq, Repr

/-- The exceptions that can surface while resolving a queryset. -/
inductive ExecError where
  | malformedQueryset (modelName : String)
  | doesNotExist (modelName : String) (query : String)
  | multipleRecordsFound (modelName : String) (query : String)
  | databaseError (name : String) (sqlstate : String) (message : String)
  | driver (e : DriverError)
  | pyAttributeError
deriving DecidableEq, Repr

/-- The `except` block shared by `_execute_query`, `_update` and `_delete`:
an error with no `sqlstate` attribute is re-raised unchanged, any other is
wrapped as `DatabaseError`. -/
def wrapDriverError (e : DriverError) : ExecError :=
  match e.sqlstate with
  | Option.none => ExecError.driver e
  | some st => ExecError.databaseError e.name st e.message

/-- `AsyncQuerySet._get`: exactly one row is returned as-is; zero rows raise
`DoesNotExist`; more raise `MultipleRecordsFound`. -/
def getOne (modelName query : String) (records : List Row) : Except ExecError Row :=
  match records with
  | [r] => Except.ok r
  | [] => Except.error (ExecError.doesNotExist modelName query)
  | _ => Except.error (ExecError.multipleRecordsFound modelName query)

/-- `AsyncQuerySet._count`: `records[0]['count']` when exactly one row came
back, otherwise Python falls off the end and returns `None`. -/
def countValue (records : List Row) : Option PVal :=
  match records with
  | [r] => some (rowGet r "count")
  | _ => Option.none

/-- The prefetch attachment loop of
`AsyncQuerySet._execute_query_with_prefetch_related`: each base object gets,
under the prefetch's dataset name, the list of secondary rows whose foreign
field equals the base object's id field. -/
def prefetchPartition (p : PrefetchMeta) (baseObjs prefetchObjs : List Row) : List Row :=
  baseObjs.map (fun b =>
    rowSetItem b p.dataset_name
      (PVal.plist (PList.ofList
        ((prefetchObjs.filter
            (fun q => decide (rowGet b p.id_field = rowGet q p.foreign_field))).map
          (fun q => PVal.pdict (PDict.ofRow q))))))

/-- The data the connections would supply to one resolution: the rows a
read-connection fetch would return (or the driver error it would raise), the
integer a write-connection execute would return (or its driver error), and
the secondary rows fetched for each prefetch descriptor in order. -/
structure ConnIO where
  fetchResult : Except DriverError (List Row)
  execResult : Except DriverError Int
  prefetchResults : List (List Row)
deriving Repr

/-- The Python value produced by a successful resolution. -/
inductive AwaitValue where
  | rows : List Row → AwaitValue
  | row : Row → AwaitValue
  | val : PVal → AwaitValue
  | pyNone : AwaitValue
deriving DecidableEq, Repr

/-- The outcome of `await queryset`: a value, a raised exception, or the
`TypeError` the interpreter raises when `__await__` returns `None` (no
branch of `__await__` produced an awaitable). -/
inductive AwaitResult where
  | ok : AwaitValue → AwaitResult
  | raised : ExecError → AwaitResult
  | typeErrorNotAnAwaitable : AwaitResult
deriving DecidableEq, Repr

/-- Turn the cached `self.records` attribute into the value `_update` /
`_delete` return. -/
def recordsValue : Records → AwaitValue
  | Records.none => AwaitValue.pyNone
  | Records.rows rs => AwaitValue.rows rs
  | Records.count n => AwaitValue.val (PVal.pint n)

/-- The result-shaping callback `func()` chosen by `__await__` for the fetch
actions, applied to the serialized records. -/
def applyAction (s : QuerySetState) (q : String) (recs : List Row) : AwaitResult :=
  match s.action with
  | some Action.get =>
      match getOne s.modelName q recs with
      | Except.ok r => AwaitResult.ok (AwaitValue.row r)
      | Except.error e => AwaitResult.raised e
  | some Action.filter => AwaitResult.ok (AwaitValue.rows recs)
  | some Action.all => AwaitResult.ok (AwaitValue.rows recs)
  | some Action.count =>
      match countValue recs with
      | some v => AwaitResult.ok (AwaitValue.val v)
      | Option.none => AwaitResult.ok AwaitValue.pyNone
  | _ => AwaitResult.raised (ExecError.malformedQueryset s.modelName)

/-- `await queryset` (`AsyncQuerySet.__await__` plus the coroutine it
returns): produces the outcome, whether any connection was contacted during
this resolution, and the updated instance state.  For the fetch actions an
already-executed instance falls off the end of `__await__`, which returns
`None` and makes the `await` raise `TypeError`; only `_update`/`_delete`
return the cached records on re-await. -/
def awaitQuerySet (s : QuerySetState) (conn : ConnIO) :
    AwaitResult × Bool × QuerySetState :=
  match s.action with
  | Option.none => (AwaitResult.raised (ExecError.malformedQueryset s.modelName), false, s)
  | some Action.update =>
      if s.query_executed then (AwaitResult.ok (recordsValue s.records), false, s)
      else
        let q := renderUpdateQuery s
        match conn.execResult with
        | Except.error e => (AwaitResult.raised (wrapDriverError e), true, { s with query := some q })
        | Except.ok n =>
            (AwaitResult.ok (AwaitValue.val (PVal.pint n)), true,
              { s with
                query := some q, records := Records.count n, query_executed := true })
  | some Action.delete =>
      if s.query_executed then (AwaitResult.ok (recordsValue s.records), false, s)
      else
        let q := renderDeleteQuery s
        match conn.execResult with
        | Except.error e => (AwaitResult.raised (wrapDriverError e), true, { s with query := some q })
        | Except.ok n =>
            (AwaitResult.ok (AwaitValue.val (PVal.pint n)), true,
              { s with
                query := some q, records := Records.count n, query_executed := true })
  | some a =>
      if s.query_executed then (AwaitResult.typeErrorNotAnAwaitable, false, s)
      else if s.run_select_related then
        match s.relation with
        | Option.none => (AwaitResult.raised ExecError.pyAttributeError, false, s)
        | some rel =>
          let q := renderSelectRelatedQuery s rel
          match conn.fetchResult with
          | Except.error e => (AwaitResult.raised (wrapDriverError e), true, { s with query := some q })
          | Except.ok raws =>
              let recs := serializeData s (denormalizeRelatedData s.columns_to_fetch rel raws)
              let s1 := { s with
                query := some q, records := Records.rows recs,
                query_executed := true }
              (applyAction s1 q recs, true, s1)
      else if s.run_prefetch_related then
        let q := renderSelectQuery s
        match conn.fetchResult with
        | Except.error e => (AwaitResult.raised (wrapDriverError e), true, { s with query := some q })
        | Except.ok raws =>
            let recs := serializeData s raws
            let s1 := { s with
              query := some q, records := Records.rows recs,
              query_executed := true }
            match applyAction s1 q recs with
            | AwaitResult.raised e => (AwaitResult.raised e, true, s1)
            | _ =>
              match a with
              | Action.count =>
                  if s.prefetches.isEmpty then (applyAction s1 q recs, true, s1)
                  else (AwaitResult.raised ExecError.pyAttributeError, true, s1)
              | _ =>
                let attached := (s.prefetches.zip conn.prefetchResults).foldl
                  (fun objs pz => prefetchPartition pz.1 objs pz.2) recs
                let s2 := { s1 with records := Records.rows attached }
                (applyAction s2 q attached, true, s2)
      else
        let q := renderSelectQuery s
        match conn.fetchResult with
        | Except.error e => (AwaitResult.raised (wrapDriverError e), true, { s with query := some q })
        | Except.ok raws =>
            let recs := serializeData s raws
            let s1 := { s with
              query := some q, records := Records.rows recs,
              query_executed := true }
            (applyAction s1 q recs, true, s1)

/-- The classification of write-path failures in `create`/`bulk_create`. -/
inductive WriteError where
  | driver (e : DriverError)
  | duplicateKey (table_name : String) (sqlstate : String) (message : String)
  | databaseError (name : String) (sqlstate : String) (message : String)
deriving DecidableEq, Repr

/-- The `except` block of `AsyncQuerySet.create` and
`AsyncQuerySet.bulk_create`: no `sqlstate` attribute re-raises unchanged;
state `23505` wraps as `DuplicateKeyDatabaseError` with the table name;
any other state wraps as `DatabaseError` with the error name. -/
def wrapWriteError (table : String) (e : DriverError) : WriteError :=
  match e.sqlstate with
  | Option.none => WriteError.driver e
  | some st =>
      if st = "23505" then WriteError.duplicateKey table st e.message
      else WriteError.databaseError e.name st e.message

/-- The INSERT statement rendered by `AsyncQuerySet.create`. -/
def createInsertQuery (table primaryKey : String) (modelDict : Row) : String :=
  "INSERT INTO " ++ table ++ " (" ++ ", ".intercalate (rowKeys modelDict) ++
    ") VALUES (" ++ ", ".intercalate ((rowKeys modelDict).map (fun c => ":" ++ c)) ++
    ")" ++ " RETURNING " ++ primaryKey ++ " AS new_id"

/-- `AsyncQuerySet.create(**kwargs)` from the already-dumped model dict
(validation and auto-field population are the external record layer): on
success the primary key is set to the returned id; on a driver failure the
error is classified by `wrapWriteError`. -/
def createRun (table primaryKey : String) (modelDict : Row)
    (execResult : Except DriverError Int) : Except WriteError Row :=
  match execResult with
  | Except.error e => Except.error (wrapWriteError table e)
  | Except.ok newId => Except.ok (rowSetItem modelDict primaryKey (PVal.pint newId))

/-- The outcome of `AsyncQuerySet.bulk_create`. -/
inductive BulkOutcome where
  | ok (query : String)
  | nothingToCreate (message : String)
  | valueError (message : String)
  | writeError (e : WriteError)
deriving DecidableEq, Repr

/-- `AsyncQuerySet.bulk_create(values, ...)` from the already-dumped model
dicts: an empty batch raises `NothingToCreateError` before anything else;
the first row's keys define the column list; the optional ON CONFLICT
clause is appended; a driver failure is classified by `wrapWriteError`. -/
def bulkCreateRun (table : String) (modelDicts : List Row)
    (onConflict : Option String) (conflictTarget updateFields : List String)
    (execResult : Except DriverError Unit) : BulkOutcome :=
  match modelDicts with
  | [] => BulkOutcome.nothingToCreate "No values were supplied for bulk creation"
  | first :: _ =>
    let colNames := rowKeys first
    let q0 := "INSERT INTO " ++ table ++ " (" ++ ", ".intercalate colNames ++
      ") VALUES (" ++ ", ".intercalate (colNames.map (fun c => ":" ++ c)) ++ ")"
    let withConflict : Except String String :=
      if onConflict = some "DO_NOTHING" then Except.ok (q0 ++ " ON CONFLICT DO NOTHING")
      else if onConflict = some "UPDATE" then
        if conflictTarget.isEmpty ∨ updateFields.isEmpty then
          Except.error "conflict_target and update_fields must be provided for ON CONFLICT UPDATE."
        else
          Except.ok (q0 ++ " ON CONFLICT (" ++ ", ".intercalate conflictTarget ++
            ") DO UPDATE SET " ++
            ", ".intercalate (updateFields.map (fun f => f ++ " = EXCLUDED." ++ f)))
      else Except.ok q0
    match withConflict with
    | Except.error m => BulkOutcome.valueError m
    | Except.ok q =>
        match execResult with
        | Except.error e => BulkOutcome.writeError (wrapWriteError table e)
        | Except.ok _ => BulkOutcome.ok q

/-- Modelled from the spec: the SQL engine executing the rendered statement
is outside the repository.  Per the generated-SQL contract (spec section 6),
an `OFFSET m` clause skips the first `m` matching rows and a `LIMIT n`
clause truncates to `n` rows; when a clause is absent (which is how
`_execute_query` renders a falsy limit/offset) all matching rows are
returned. -/
def fetchedRows (s : QuerySetState) (matching : List Row) : List Row :=
  let afterOffset :=
    if optIntTruthy s.fetch_offset then matching.drop (s.fetch_offset.getD 0).toNat
    else matching
  if optIntTruthy s.fetch_limit then afterOffset.take (s.fetch_limit.getD 0).toNat
  else afterOffset

/-! ### Helper lemmas about the embedded dictionary operations -/

theorem rowGet_cons (q : String × PVal) (rest : Row) (k : String) :
    rowGet (q :: rest) k = if q.1 = k then q.2 else rowGet rest k := by
  by_cases hq : q.1 = k
  · simp [rowGet, List.find?_cons, hq]
  · simp [rowGet, List.find?_cons, hq]

theorem rowHasKey_cons (q : String × PVal) (rest : Row) (k : String) :
    rowHasKey (q :: rest) k = (decide (q.1 = k) || rowHasKey rest k) := rfl

theorem rowGet_append_single_other (r : Row) (k k' : String) (v : PVal)
    (hne : k' ≠ k) : rowGet (r ++ [(k, v)]) k' = rowGet r k' := by
  induction r with
  | nil =>
    have hk : ¬ ((k : String) = k') := fun hc => hne hc.symm
    simp [rowGet, List.find?_cons, hk]
  | cons q rest ih =>
    rw [List.cons_append, rowGet_cons, rowGet_cons, ih]

theorem rowGet_map_override_other (r : Row) (k k' : String) (v : PVal)
    (hne : k' ≠ k) :
    rowGet (r.map (fun p => if p.1 = k then (k, v) else p)) k' = rowGet r k' := by
  induction r with
  | nil => rfl
  | cons q rest ih =>
    rw [List.map_cons, rowGet_cons, rowGet_cons, ih]
    by_cases hq : q.1 = k
    · have h1 : ¬ ((k : String) = k') := fun hc => hne hc.symm
      have h2 : ¬ (q.1 = k') := by
        rw [hq]; exact h1
      simp [hq, h1, h2]
    · simp [hq]

theorem rowGet_append_single_self (r : Row) (k : String) (v : PVal)
    (h : rowHasKey r k = false) : rowGet (r ++ [(k, v)]) k = v := by
  induction r with
  | nil => simp [rowGet, List.find?_cons]
  | cons q rest ih =>
    rw [rowHasKey_cons] at h
    rcases Bool.or_eq_false_iff.mp h with ⟨h1, h2⟩
    have hq : ¬ (q.1 = k) := of_decide_eq_false h1
    rw [List.cons_append, rowGet_cons]
    simp [hq, ih h2]

theorem rowGet_map_override_self (r : Row) (k : String) (v : PVal)
    (h : rowHasKey r k = true) :
    rowGet (r.map (fun p => if p.1 = k then (k, v) else p)) k = v := by
  induction r with
  | nil => simp [rowHasKey] at h
  | cons q rest ih =>
    rw [List.map_cons, rowGet_cons]
    by_cases hq : q.1 = k
    · simp [hq]
    · rw [rowHasKey_cons] at h
      have h2 : rowHasKey rest k = true := by
        rcases Bool.or_eq_true_iff.mp h with h1 | h1
        · exact absurd (of_decide_eq_true h1) hq
        · exact h1
      simp [hq, ih h2]

theorem rowGet_setItem_self (r : Row) (k : String) (v : PVal) :
    rowGet (rowSetItem r k v) k = v := by
  unfold rowSetItem
  cases h : rowHasKey r k with
  | true => simpa [h] using rowGet_map_override_self r k v h
  | false => simpa [h] using rowGet_append_single_self r k v h

theorem rowGet_setItem_other (r : Row) (k k' : String) (v : PVal) (hne : k' ≠ k) :
    rowGet (rowSetItem r k v) k' = rowGet r k' := by
  unfold rowSetItem
  cases h : rowHasKey r k with
  | true => simpa [h] using rowGet_map_override_other r k k' v hne
  | false => simpa [h] using rowGet_append_single_other r k k' v hne

theorem rowGet_fold_not_mem (fs : List String) (acc : Row) (g : String → PVal)
    (k : String) (hk : k ∉ fs) :
    rowGet (fs.foldl (fun a f => rowSetItem a f (g f)) acc) k = rowGet acc k := by
  induction fs generalizing acc with
  | nil => rfl
  | cons f rest ih =>
    have hkf : k ≠ f := fun hc => hk (by simp [hc])
    have hkr : k ∉ rest := fun hc => hk (by simp [hc])
    simpa [List.foldl_cons, ih _ hkr] using rowGet_setItem_other acc f k (g f) hkf

theorem rowGet_fold_mem (fs : List String) (acc : Row) (g : String → PVal)
    (k : String) (hk : k ∈ fs) :
    rowGet (fs.foldl (fun a f => rowSetItem a f (g f)) acc) k = g k := by
  induction fs generalizing acc with
  | nil => simp at hk
  | cons f rest ih =>
    by_cases hkr : k ∈ rest
    · simpa [List.foldl_cons] using ih (rowSetItem acc f (g f)) hkr
    · have hkf : k = f := by
        rcases List.mem_cons.mp hk with h | h
        · exact h
        · exact absurd h hkr
      subst hkf
      simp only [List.foldl_cons]
      rw [rowGet_fold_not_mem rest _ g k hkr, rowGet_setItem_self]

theorem pyOverride_fst (b : List (String × PVal)) (p : String × PVal) :
    (pyOverride b p).1 = p.1 := by
  unfold pyOverride
  cases b.find? (fun q => decide (q.1 = p.1)) <;> rfl

theorem keySet_pyMerge (a b : List (String × PVal)) :
    keySet (pyMerge a b) = keySet a ∪ keySet b := by
  ext x
  simp only [keySet, pyMerge, List.map_append, List.toFinset_append,
    Finset.mem_union, List.mem_toFinset, List.mem_map, List.mem_filter]
  constructor
  · rintro (h | h)
    · obtain ⟨p, hp, hx⟩ := h
      obtain ⟨p0, hp0, rfl⟩ := hp
      exact Or.inl ⟨p0, hp0, by rw [← hx, pyOverride_fst]⟩
    · obtain ⟨q, hq, hx⟩ := h
      exact Or.inr ⟨q, hq.1, hx⟩
  · rintro (h | h)
    · obtain ⟨p, hp, rfl⟩ := h
      refine Or.inl ⟨pyOverride b p, ?_, pyOverride_fst b p⟩
      exact ⟨p, hp, rfl⟩
    · obtain ⟨q, hq, rfl⟩ := h
      by_cases hany : a.any (fun p => decide (p.1 = q.1)) = true
      · rcases List.any_eq_true.mp hany with ⟨p, hp, hpq⟩
        refine Or.inl ⟨pyOverride b p, ?_, ?_⟩
        · exact ⟨p, hp, rfl⟩
        · rw [pyOverride_fst]
          exact of_decide_eq_true hpq
      · refine Or.inr ⟨q, ⟨hq, ?_⟩, rfl⟩
        simp [hany]

/-! ### Helper lemmas about the embedded string operations -/

theorem isPrefixOf_append_self (l t : List Char) : l.isPrefixOf (l ++ t) = true := by
  induction l with
  | nil => simp [List.isPrefixOf]
  | cons c rest ih => simpa [List.isPrefixOf] using ih

theorem isPrefixOf_take (pat : List Char) : ∀ (l : List Char),
    pat.isPrefixOf l = pat.isPrefixOf (l.take pat.length) := by
  induction pat with
  | nil => intro l; simp [List.isPrefixOf]
  | cons a as ih =>
    intro l
    cases l with
    | nil => simp [List.isPrefixOf]
    | cons b bs => simp [List.isPrefixOf, List.take_succ_cons, ih bs]

theorem replaceSubAux_no_occur (pat rep : List Char) (fuel : Nat) (l : List Char)
    (h : containsSub pat l = false) : replaceSubAux pat rep fuel l = l := by
  induction fuel generalizing l with
  | zero => rfl
  | succ n ih =>
    cases l with
    | nil => rfl
    | cons c rest =>
      have h2 := h
      simp only [containsSub, Bool.or_eq_false_iff] at h2
      simp [replaceSubAux, h2.1, ih rest h2.2]

theorem replaceSubAux_head (p : Char) (ps rep rest : List Char) (n : Nat)
    (h : containsSub (p :: ps) rest = false) :
    replaceSubAux (p :: ps) rep (n + 1) ((p :: ps) ++ rest) = rep ++ rest := by
  have hpfx : (p :: ps).isPrefixOf (p :: (ps ++ rest)) = true := by
    have := isPrefixOf_append_self (p :: ps) rest
    rwa [List.cons_append] at this
  have hdrop : (p :: (ps ++ rest)).drop (p :: ps).length = rest := by
    have := List.drop_left (p :: ps) rest
    rwa [List.cons_append] at this
  rw [List.cons_append]
  simp only [replaceSubAux, hpfx, if_true, hdrop]
  rw [replaceSubAux_no_occur _ _ _ _ h]

theorem string_data_append (a b : String) : (a ++ b).data = a.data ++ b.data := rfl

theorem string_mk_append (a b : String) :
    String.mk (a.data ++ b.data) = a ++ b := rfl

theorem routeKey_no_occur (rk key : String)
    (h : containsSub rk.data key.data = false) :
    routeKey (some rk) key = "t." ++ key := by
  simp [routeKey, h]

theorem routeKey_replace_head (rk rest : String) (hne : rk.data ≠ [])
    (hocc : containsSub rk.data rest.data = false) :
    routeKey (some rk) (rk ++ rest) = "r." ++ rest := by
  rcases hd : rk.data with _ | ⟨p, ps⟩
  · exact absurd hd hne
  · have hcontains : containsSub rk.data (rk ++ rest).data = true := by
      rw [string_data_append, hd]
      simp [containsSub, isPrefixOf_append_self]
    simp only [routeKey, hcontains, if_true]
    unfold stringReplace
    rw [string_data_append, hd]
    have hocc' : containsSub (p :: ps) rest.data = false := by
      rw [← hd]; exact hocc
    have hlen : ((p :: ps) ++ rest.data).length = (ps.length + rest.data.length) + 1 := by
      rw [List.length_append, List.length_cons]
      omega
    rw [hlen, replaceSubAux_head p ps _ rest.data _ hocc']
    exact string_mk_append "r." rest

theorem splitFirst_underscore (f tail : List Char)
    (h : containsSub ['_', '_'] (f ++ ['_']) = false) :
    splitFirstAux ['_', '_'] (f ++ ['_', '_'] ++ tail) = some (f, tail) := by
  induction f with
  | nil =>
    have hpfx : (['_', '_'] : List Char).isPrefixOf ('_' :: '_' :: tail) = true := by
      simp [List.isPrefixOf]
    rw [List.nil_append]
    rw [show ((['_', '_'] : List Char) ++ tail) = '_' :: ('_' :: tail) from rfl]
    simp [splitFirstAux, hpfx]
  | cons c f' ih =>
    rw [List.cons_append] at h
    simp only [containsSub, Bool.or_eq_false_iff] at h
    obtain ⟨h1, h2⟩ := h
    have htake : (c :: (f' ++ ['_', '_'] ++ tail)).take 2 = (c :: (f' ++ ['_'])).take 2 := by
      cases f' with
      | nil => simp
      | cons d f'' => simp
    have hpfx : (['_', '_'] : List Char).isPrefixOf
        (c :: (f' ++ ['_', '_'] ++ tail)) = false := by
      rw [isPrefixOf_take] at h1 ⊢
      rw [show (['_', '_'] : List Char).length = 2 from rfl] at h1 ⊢
      rw [htake]
      exact h1
    have hassoc : (c :: f') ++ ['_', '_'] ++ tail = c :: (f' ++ ['_', '_'] ++ tail) := by
      simp
    rw [hassoc, splitFirstAux, hpfx]
    simp only [Bool.false_eq_true, if_false]
    rw [ih h2]
    rfl

/-! ### Helper lemmas about the condition builder loop -/

theorem qBuildAux_append (relKey : Option String) (secret : Nat)
    (st : BuildState) (xs ys : List (String × PVal)) :
    qBuildAux relKey secret st (xs ++ ys) =
      match qBuildAux relKey secret st xs with
      | Except.error e => Except.error e
      | Except.ok st1 => qBuildAux relKey secret st1 ys := by
  induction xs generalizing st with
  | nil => rfl
  | cons kv rest ih =>
    obtain ⟨k, v⟩ := kv
    simp only [List.cons_append, qBuildAux]
    cases processItem relKey secret (st.fieldIdx + 1) k v with
    | error e => rfl
    | ok cp => exact ih _

/-! ### Helper lemmas for the prefetch counting argument -/

theorem sum_map_add {α : Type} (l : List α) (f g : α → Nat) :
    (l.map (fun x => f x + g x)).sum = (l.map f).sum + (l.map g).sum := by
  induction l with
  | nil => rfl
  | cons x rest ih => simp [ih]; omega

theorem sum_map_ite_eq_countP {α : Type} (l : List α) (p : α → Bool) :
    (l.map (fun x => if p x then 1 else 0)).sum = l.countP p := by
  induction l with
  | nil => rfl
  | cons x rest ih =>
    by_cases hx : p x <;> simp [List.countP_cons, hx, ih] <;> omega

theorem countP_eq_one_of_nodup_mem {β : Type} [DecidableEq β]
    (keys : List β) (v : β) (hnd : keys.Nodup) (hv : v ∈ keys) :
    keys.countP (fun k => decide (k = v)) = 1 := by
  induction keys with
  | nil => simp at hv
  | cons k ks ih =>
    have hk : k ∉ ks := (List.nodup_cons.mp hnd).1
    have hnd' : ks.Nodup := (List.nodup_cons.mp hnd).2
    rcases List.mem_cons.mp hv with hvk | hvk
    · subst hvk
      have hz : ks.countP (fun x => decide (x = v)) = 0 :=
        List.countP_eq_zero.mpr (fun x hx => by
          simp only [decide_eq_true_eq]
          intro hc
          exact hk (hc ▸ hx))
      simp [List.countP_cons, hz]
    · have hne : ¬ (k = v) := fun hc => hk (hc ▸ hvk)
      simp [List.countP_cons, hne, ih hnd' hvk]

theorem sum_count_partition {β : Type} [DecidableEq β] (keys vals : List β)
    (hnd : keys.Nodup) (hmem : ∀ v ∈ vals, v ∈ keys) :
    (keys.map (fun k => vals.countP (fun v => decide (k = v)))).sum = vals.length := by
  induction vals with
  | nil => simp
  | cons v rest ih =>
    have hrest : ∀ w ∈ rest, w ∈ keys := fun w hw => hmem w (by simp [hw])
    have hv : v ∈ keys := hmem v (by simp)
    have hfun : (fun k : β => (v :: rest).countP (fun w => decide (k = w))) =
        fun k => rest.countP (fun w => decide (k = w)) + (if decide (k = v) then 1 else 0) := by
      funext k
      simp [List.countP_cons]
    rw [hfun, sum_map_add, ih hrest, sum_map_ite_eq_countP,
      countP_eq_one_of_nodup_mem keys v hnd hv]
    simp

/-! ### Claim C7 -/

/-- C7: for all Conditions `a` and `b`, combining them with AND or with OR
produces a Condition whose expression parenthesizes the two operand
expressions joined by the operator, and whose parameter map's key set equals
the union of `a`'s and `b`'s key sets. -/
theorem c7_combine_and_or (a b : Cond) :
    (Cond.and a b).where_clause =
      "(" ++ a.where_clause ++ " AND " ++ b.where_clause ++ ")" ∧
    (Cond.or a b).where_clause =
      "(" ++ a.where_clause ++ " OR " ++ b.where_clause ++ ")" ∧
    keySet (Cond.and a b).params = keySet a.params ∪ keySet b.params ∧
    keySet (Cond.or a b).params = keySet a.params ∪ keySet b.params :=
  ⟨rfl, rfl, keySet_pyMerge a.params b.params, keySet_pyMerge a.params b.params⟩

/-! ### Claim C10 -/

/-- C10: `limit(0)` and `offset(0)` are indistinguishable from never calling
`limit`/`offset`: zero is falsy, so `_execute_query` renders no
`LIMIT`/`OFFSET` clause, and the executed statement returns all matching
rows instead of none. -/
theorem c10_limit_offset_zero (s : QuerySetState) (matching : List Row) :
    renderSelectQuery (limitMethod s 0) =
      renderSelectQuery { s with fetch_limit := Option.none } ∧
    renderSelectQuery (offsetMethod s 0) =
      renderSelectQuery { s with fetch_offset := Option.none } ∧
    fetchedRows { s with fetch_limit := some 0, fetch_offset := some 0 } matching =
      matching := by
  refine ⟨?_, ?_, ?_⟩ <;>
    simp [renderSelectQuery, limitMethod, offsetMethod, optIntTruthy, fetchedRows]

/-! ### Claim C1 -/

/-- The unfiltered queryset at the heart of C1: a freshly initialised
instance, where `__init__` has set `where_conditions` to the empty string. -/
def c1Init : QuerySetState := initQuerySet "User" "users" "id" ["id", "name"]

/-- The instance state after `update(name="Bob")` on the fresh queryset. -/
def c1UpdState : QuerySetState :=
  match updateMethod c1Init [("name", PVal.pstr "Bob")] with
  | Except.ok s => s
  | Except.error _ => c1Init

/-- The instance state after `delete()` on the fresh queryset. -/
def c1DelState : QuerySetState :=
  match deleteMethod c1Init with
  | Except.ok s => s
  | Except.error _ => c1Init

/-- The connection data for the C1 resolution. -/
def c1Conn : ConnIO := ⟨Except.ok [], Except.ok 1, []⟩

set_option maxRecDepth 10000 in
/-- C1: the unrestricted-operation guard never fires.  `__init__` sets
`where_conditions` to `""` while the guards in `update()`/`delete()`
compare against `None` only, so `update(name="Bob")` and `delete()` on a
freshly built queryset raise nothing, and awaiting them contacts the write
connection with a statement whose WHERE clause is empty — contradicting the
specified hard safety invariant. -/
theorem c1_unrestricted_guard_never_fires :
    c1Init.where_conditions = some "" ∧
    (updateMethod c1Init [("name", PVal.pstr "Bob")]).isOk = true ∧
    (deleteMethod c1Init).isOk = true ∧
    (awaitQuerySet c1UpdState c1Conn).2.1 = true ∧
    (awaitQuerySet c1UpdState c1Conn).2.2.query = some
      ("\n                WITH updated AS (\n                    UPDATE users t" ++
       "\n                    SET name=:set_name\n                    WHERE " ++
       "\n                    RETURNING id AS updated_id" ++
       "\n                ) SELECT COUNT(*) AS updated_count FROM updated;") ∧
    (awaitQuerySet c1DelState c1Conn).2.1 = true ∧
    (awaitQuerySet c1DelState c1Conn).2.2.query = some
      ("\n                WITH deleted AS (\n                    DELETE FROM users t" ++
       "\n                    WHERE " ++
       "\n                    RETURNING id AS deleted_id" ++
       "\n                ) SELECT COUNT(*) AS deleted_count FROM deleted;") := by
  decide

/-! ### Claim C4 -/

/-- The C4 counterexample instance: a resolved `filter` queryset with cached
rows, awaited a second time. -/
def c4ExecState : QuerySetState :=
  { (initQuerySet "User" "users" "id" ["id", "name"]) with
    action := some Action.filter, query_executed := true,
    records := Records.rows [[("id", PVal.pint 1), ("name", PVal.pstr "A")]] }

/-- Connection data that would answer any re-query in the C4 scenario. -/
def c4Conn : ConnIO := ⟨Except.ok [[("id", PVal.pint 99)]], Except.ok 1, []⟩

/-- An already-resolved `update` queryset for the C4 witness. -/
def c4UpdState : QuerySetState :=
  { (initQuerySet "User" "users" "id" ["id", "name"]) with
    action := some Action.update, query_executed := true,
    records := Records.count 3 }

/-- C4 counterexample: awaiting an already-executed `filter` queryset does
not return the cached rows — `__await__` falls off the end and returns
`None`, so the `await` raises `TypeError` (no query is issued either). -/
theorem c4_counterexample :
    awaitQuerySet c4ExecState c4Conn =
      (AwaitResult.typeErrorNotAnAwaitable, false, c4ExecState) ∧
    AwaitResult.typeErrorNotAnAwaitable ≠
      AwaitResult.ok (recordsValue c4ExecState.records) := by
  decide

/-- C4 (amended): once `query_executed` is set, a second await issues no
query and leaves the state unchanged; for `update`/`delete` it returns the
cached records, while for `get`/`filter`/`all`/`count` the `__await__`
method returns `None` and the await raises `TypeError`. -/
theorem c4_await_after_execution (s : QuerySetState) (conn : ConnIO)
    (hexec : s.query_executed = true) :
    ((s.action = some Action.update ∨ s.action = some Action.delete) →
      awaitQuerySet s conn = (AwaitResult.ok (recordsValue s.records), false, s)) ∧
    ((s.action = some Action.get ∨ s.action = some Action.filter ∨
        s.action = some Action.all ∨ s.action = some Action.count) →
      awaitQuerySet s conn = (AwaitResult.typeErrorNotAnAwaitable, false, s)) := by
  constructor
  · rintro (h | h) <;> simp [awaitQuerySet, h, hexec]
  · rintro (h | h | h | h) <;> simp [awaitQuerySet, h, hexec]

/-- C4 witness: the amended theorem applied to a concrete resolved `update`
queryset. -/
theorem c4_await_after_execution_witness :
    awaitQuerySet c4UpdState c4Conn =
      (AwaitResult.ok (recordsValue c4UpdState.records), false, c4UpdState) :=
  (c4_await_after_execution c4UpdState c4Conn rfl).1 (Or.inl rfl)

/-! ### Claim C6 -/

/-- C6: classification of driver errors raised during `create()` and
`bulk_create()`: sqlstate `23505` wraps as `DuplicateKeyDatabaseError`
carrying the table name and message; any other sqlstate wraps as
`DatabaseError` carrying the error name, state code and message; an error
with no `sqlstate` attribute propagates unchanged. -/
theorem c6_write_error_classification (table primaryKey : String)
    (modelDict : Row) (dicts : List Row) (e : DriverError) :
    (e.sqlstate = some "23505" →
      createRun table primaryKey modelDict (Except.error e) =
        Except.error (WriteError.duplicateKey table "23505" e.message) ∧
      bulkCreateRun table (modelDict :: dicts) Option.none [] [] (Except.error e) =
        BulkOutcome.writeError (WriteError.duplicateKey table "23505" e.message)) ∧
    (∀ st, e.sqlstate = some st → st ≠ "23505" →
      createRun table primaryKey modelDict (Except.error e) =
        Except.error (WriteError.databaseError e.name st e.message) ∧
      bulkCreateRun table (modelDict :: dicts) Option.none [] [] (Except.error e) =
        BulkOutcome.writeError (WriteError.databaseError e.name st e.message)) ∧
    (e.sqlstate = Option.none →
      createRun table primaryKey modelDict (Except.error e) =
        Except.error (WriteError.driver e) ∧
      bulkCreateRun table (modelDict :: dicts) Option.none [] [] (Except.error e) =
        BulkOutcome.writeError (WriteError.driver e)) := by
  refine ⟨?_, ?_, ?_⟩
  · intro h
    constructor <;> simp [createRun, bulkCreateRun, wrapWriteError, h]
  · intro st h hne
    constructor <;> simp [createRun, bulkCreateRun, wrapWriteError, h, hne]
  · intro h
    constructor <;> simp [createRun, bulkCreateRun, wrapWriteError, h]

/-- A unique-violation driver error used by the C6 witness. -/
def c6Dup : DriverError := ⟨"UniqueViolationError", some "23505", "duplicate key"⟩

/-- C6 witness: the classification applied to a concrete duplicate-key
driver error. -/
theorem c6_write_error_classification_witness :
    createRun "users" "id" [("name", PVal.pstr "A")] (Except.error c6Dup) =
      Except.error (WriteError.duplicateKey "users" "23505" "duplicate key") ∧
    bulkCreateRun "users" [[("name", PVal.pstr "A")]] Option.none [] []
        (Except.error c6Dup) =
      BulkOutcome.writeError (WriteError.duplicateKey "users" "23505" "duplicate key") :=
  (c6_write_error_classification "users" "id" [("name", PVal.pstr "A")] [] c6Dup).1 rfl

/-! ### Claim C8 -/

/-- C8: a resolved non-joined `get()`: zero fetched rows raise
`DoesNotExist`, two or more raise `MultipleRecordsFound`, and exactly one
returns that row unchanged (field for field), in each case after contacting
the connection exactly once. -/
theorem c8_get_trichotomy (s : QuerySetState) (conn : ConnIO) (rows : List Row)
    (ha : s.action = some Action.get) (hexec : s.query_executed = false)
    (hsr : s.run_select_related = false) (hpr : s.run_prefetch_related = false)
    (hf : conn.fetchResult = Except.ok rows) :
    (rows = [] →
      awaitQuerySet s conn =
        (AwaitResult.raised
            (ExecError.doesNotExist s.modelName (renderSelectQuery s)), true,
          { s with
            query := some (renderSelectQuery s), records := Records.rows rows,
            query_executed := true })) ∧
    (∀ r r2 rest, rows = r :: r2 :: rest →
      awaitQuerySet s conn =
        (AwaitResult.raised
            (ExecError.multipleRecordsFound s.modelName (renderSelectQuery s)), true,
          { s with
            query := some (renderSelectQuery s), records := Records.rows rows,
            query_executed := true })) ∧
    (∀ r, rows = [r] →
      awaitQuerySet s conn =
        (AwaitResult.ok (AwaitValue.row r), true,
          { s with
            query := some (renderSelectQuery s), records := Records.rows rows,
            query_executed := true })) := by
  refine ⟨?_, ?_, ?_⟩
  · rintro rfl
    simp [awaitQuerySet, ha, hexec, hsr, hpr, hf, serializeData, applyAction, getOne]
  · rintro r r2 rest rfl
    simp [awaitQuerySet, ha, hexec, hsr, hpr, hf, serializeData, applyAction, getOne]
  · rintro r rfl
    simp [awaitQuerySet, ha, hexec, hsr, hpr, hf, serializeData, applyAction, getOne]

/-- The concrete single-row `get()` instance for the C8 witness. -/
def c8State : QuerySetState :=
  { (initQuerySet "User" "users" "id" ["id", "name"]) with
    action := some Action.get,
    base_query := some "SELECT id,name FROM users t",
    where_conditions := some "t.id = :t_id_1_5",
    query_param_values := [("t_id_1_5", PVal.pint 1)] }

/-- The connection data for the C8 witness: exactly one matching row. -/
def c8Conn : ConnIO :=
  ⟨Except.ok [[("id", PVal.pint 1), ("name", PVal.pstr "A")]], Except.ok 1, []⟩

/-- C8 witness: the trichotomy applied to a concrete one-row fetch. -/
theorem c8_get_trichotomy_witness :
    awaitQuerySet c8State c8Conn =
      (AwaitResult.ok (AwaitValue.row [("id", PVal.pint 1), ("name", PVal.pstr "A")]),
        true,
        { c8State with
          query := some (renderSelectQuery c8State),
          records := Records.rows [[("id", PVal.pint 1), ("name", PVal.pstr "A")]],
          query_executed := true }) :=
  (c8_get_trichotomy c8State c8Conn [[("id", PVal.pint 1), ("name", PVal.pstr "A")]]
      rfl rfl rfl rfl rfl).2.2 [("id", PVal.pint 1), ("name", PVal.pstr "A")] rfl

/-! ### Claim C2 -/

/-- The relation used in the C2 scenarios (`User.profile` to-one join). -/
def c2Rel : RelationMeta := ⟨"profiles", ["id", "bio"], "profile_id", "id", "profile"⟩

/-- A raw joined row: base row id 1 joined to profile 10. -/
def c2RowA : Row :=
  [("t_id", PVal.pint 1), ("t_name", PVal.pstr "A"),
   ("r_id", PVal.pint 10), ("r_bio", PVal.pstr "x")]

/-- A raw joined row sharing base identity 1 but a different related row. -/
def c2RowB : Row :=
  [("t_id", PVal.pint 1), ("t_name", PVal.pstr "A"),
   ("r_id", PVal.pint 11), ("r_bio", PVal.pstr "y")]

/-- A raw joined row with a distinct base identity 2 and no matched join. -/
def c2RowC : Row :=
  [("t_id", PVal.pint 2), ("t_name", PVal.pstr "B"),
   ("r_id", PVal.pnone), ("r_bio", PVal.pnone)]

/-- C2 counterexample: two raw joined rows sharing the base identity 1 are
denormalized into two result records (both carrying id 1), not one record
per distinct base identity. -/
theorem c2_counterexample :
    (denormalizeRelatedData ["id", "name"] c2Rel [c2RowA, c2RowB]).length = 2 ∧
    (denormalizeRelatedData ["id", "name"] c2Rel [c2RowA, c2RowB]).map
      (fun item => rowGet item "id") = [PVal.pint 1, PVal.pint 1] := by
  decide

/-- The value of the base-identity column of a denormalized item. -/
theorem denormItem_pk (cols : List String) (rel : RelationMeta) (record : Row)
    (pk : String) (hpk : pk ∈ cols) (hne : pk ≠ rel.related_name) :
    rowGet (denormItem cols rel record) pk = rowGet record ("t_" ++ pk) := by
  unfold denormItem
  by_cases ht : (rowGet record ("r_" ++ rel.related_id_field)).truthy
  · simp only [ht, if_true]
    rw [rowGet_setItem_other _ _ _ _ hne, rowGet_setItem_other _ _ _ _ hne,
      rowGet_fold_mem _ _ _ _ hpk]
  · simp only [ht, Bool.false_eq_true, if_false]
    rw [rowGet_setItem_other _ _ _ _ hne, rowGet_fold_mem _ _ _ _ hpk]

/-- The related attribute of a denormalized item: the related sub-record
when the joined related-id value is truthy, `None` otherwise. -/
theorem denormItem_related (cols : List String) (rel : RelationMeta) (record : Row) :
    rowGet (denormItem cols rel record) rel.related_name =
      (if (rowGet record ("r_" ++ rel.related_id_field)).truthy
        then relatedDict rel record else PVal.pnone) := by
  unfold denormItem
  by_cases ht : (rowGet record ("r_" ++ rel.related_id_field)).truthy
  · simp only [ht, if_true]
    exact rowGet_setItem_self _ _ _
  · simp only [ht, Bool.false_eq_true, if_false]
    exact rowGet_setItem_self _ _ _

/-- C2 (amended): `_denormalize_related_data` maps each raw joined row to
one result record — no grouping happens — so the output length equals the
raw row count; each record's base-identity column is copied from its raw
row's `t_`-aliased column; the related name holds the related sub-record
exactly when the joined related-id value is truthy, and `None` otherwise;
one record per distinct base identity therefore holds exactly when the raw
rows' base identities are pairwise distinct, which a to-one LEFT JOIN
guarantees. -/
theorem c2_denormalize_per_row (cols : List String) (rel : RelationMeta)
    (records : List Row) (pk : String)
    (hpk : pk ∈ cols) (hrn : rel.related_name ∉ cols)
    (hnd : (records.map (fun r => rowGet r ("t_" ++ pk))).Nodup) :
    (denormalizeRelatedData cols rel records).length = records.length ∧
    (denormalizeRelatedData cols rel records).map (fun item => rowGet item pk) =
      records.map (fun r => rowGet r ("t_" ++ pk)) ∧
    ((denormalizeRelatedData cols rel records).map (fun item => rowGet item pk)).Nodup ∧
    (∀ record ∈ records,
      rowGet (denormItem cols rel record) rel.related_name =
        (if (rowGet record ("r_" ++ rel.related_id_field)).truthy
          then relatedDict rel record else PVal.pnone)) := by
  have hne : pk ≠ rel.related_name := fun hc => hrn (hc ▸ hpk)
  have hmap : (denormalizeRelatedData cols rel records).map (fun item => rowGet item pk) =
      records.map (fun r => rowGet r ("t_" ++ pk)) := by
    rw [denormalizeRelatedData, List.map_map]
    have hfun : ((fun item => rowGet item pk) ∘ denormItem cols rel) =
        fun r => rowGet r ("t_" ++ pk) :=
      funext (fun r => denormItem_pk cols rel r pk hpk hne)
    rw [hfun]
  refine ⟨?_, hmap, ?_, ?_⟩
  · simp [denormalizeRelatedData]
  · rw [hmap]; exact hnd
  · intro record _
    exact denormItem_related cols rel record

/-- C2 witness: the amended theorem applied to two raw rows with distinct
base identities, one with a matched join and one without. -/
theorem c2_denormalize_per_row_witness :
    (denormalizeRelatedData ["id", "name"] c2Rel [c2RowA, c2RowC]).length =
      ([c2RowA, c2RowC] : List Row).length ∧
    (denormalizeRelatedData ["id", "name"] c2Rel [c2RowA, c2RowC]).map
        (fun item => rowGet item "id") =
      ([c2RowA, c2RowC] : List Row).map (fun r => rowGet r ("t_" ++ "id")) ∧
    ((denormalizeRelatedData ["id", "name"] c2Rel [c2RowA, c2RowC]).map
        (fun item => rowGet item "id")).Nodup ∧
    (∀ record ∈ ([c2RowA, c2RowC] : List Row),
      rowGet (denormItem ["id", "name"] c2Rel record) c2Rel.related_name =
        (if (rowGet record ("r_" ++ c2Rel.related_id_field)).truthy
          then relatedDict c2Rel record else PVal.pnone)) :=
  c2_denormalize_per_row ["id", "name"] c2Rel [c2RowA, c2RowC] "id"
    (by decide) (by decide) (by decide)

/-! ### Claim C5 -/

/-- `(l.map f).getD i d` picks `f` of the underlying element while the index
is in bounds. -/
theorem getD_map_lt {α β : Type} (l : List α) (f : α → β) (i : Nat) (d : β)
    (d' : α) (hi : i < l.length) : (l.map f).getD i d = f (l.getD i d') := by
  induction l generalizing i with
  | nil => simp at hi
  | cons a rest ih =>
    cases i with
    | zero => rfl
    | succ j =>
      have hj : j < rest.length := by simpa using hi
      simpa [List.getD] using ih j hj

/-- C5: after prefetch resolution, each base object's prefetched attribute
holds exactly the secondary rows whose foreign-field value equals that base
object's key-field value (in fetch order), and — when the fetched secondary
rows all carry a foreign value present among the pairwise-distinct base key
values, as the `foreign_field IN (base keys)` query guarantees — the total
attached row count equals the secondary row count: no secondary row dropped
or duplicated. -/
theorem c5_prefetch_partition (p : PrefetchMeta) (baseObjs prefetchObjs : List Row)
    (hnd : (baseObjs.map (fun b => rowGet b p.id_field)).Nodup)
    (hmem : ∀ q ∈ prefetchObjs,
      rowGet q p.foreign_field ∈ baseObjs.map (fun b => rowGet b p.id_field)) :
    (prefetchPartition p baseObjs prefetchObjs).length = baseObjs.length ∧
    (∀ i, i < baseObjs.length →
      rowGet ((prefetchPartition p baseObjs prefetchObjs).getD i []) p.dataset_name =
        PVal.plist (PList.ofList
          ((prefetchObjs.filter (fun q =>
              decide (rowGet (baseObjs.getD i []) p.id_field =
                rowGet q p.foreign_field))).map
            (fun q => PVal.pdict (PDict.ofRow q))))) ∧
    (baseObjs.map (fun b => (prefetchObjs.filter (fun q =>
        decide (rowGet b p.id_field = rowGet q p.foreign_field))).length)).sum =
      prefetchObjs.length := by
  refine ⟨by simp [prefetchPartition], ?_, ?_⟩
  · intro i hi
    rw [prefetchPartition, getD_map_lt _ _ _ _ ([] : Row) hi]
    exact rowGet_setItem_self _ _ _
  · have hlen : ∀ b : Row,
        (prefetchObjs.filter (fun q =>
          decide (rowGet b p.id_field = rowGet q p.foreign_field))).length =
        (prefetchObjs.map (fun q => rowGet q p.foreign_field)).countP
          (fun w => decide (rowGet b p.id_field = w)) := by
      intro b
      rw [List.countP_map]
      rw [← List.countP_eq_length_filter]
      rfl
    have hfun : (fun b => (prefetchObjs.filter (fun q =>
        decide (rowGet b p.id_field = rowGet q p.foreign_field))).length) =
        (fun k => (prefetchObjs.map (fun q => rowGet q p.foreign_field)).countP
          (fun w => decide (k = w))) ∘ (fun b => rowGet b p.id_field) :=
      funext (fun b => hlen b)
    rw [hfun, ← List.map_map]
    have hmem' : ∀ w ∈ prefetchObjs.map (fun q => rowGet q p.foreign_field),
        w ∈ baseObjs.map (fun b => rowGet b p.id_field) := by
      intro w hw
      obtain ⟨q, hq, rfl⟩ := List.mem_map.mp hw
      exact hmem q hq
    rw [sum_count_partition _ _ hnd hmem']
    simp

/-- The prefetch descriptor for the C5 witness: books keyed to users. -/
def c5Meta : PrefetchMeta := ⟨"books", "author_id", "id"⟩

/-- C5 witness base rows: users 1 and 2. -/
def c5Base : List Row := [[("id", PVal.pint 1)], [("id", PVal.pint 2)]]

/-- C5 witness secondary rows: three books, two for user 1 and one for
user 2. -/
def c5Books : List Row :=
  [[("bid", PVal.pint 10), ("author_id", PVal.pint 1)],
   [("bid", PVal.pint 11), ("author_id", PVal.pint 2)],
   [("bid", PVal.pint 12), ("author_id", PVal.pint 1)]]

/-- C5 witness: the partition property applied to 2 base rows and 3
secondary rows. -/
theorem c5_prefetch_partition_witness :
    (prefetchPartition c5Meta c5Base c5Books).length = c5Base.length ∧
    (∀ i, i < c5Base.length →
      rowGet ((prefetchPartition c5Meta c5Base c5Books).getD i []) c5Meta.dataset_name =
        PVal.plist (PList.ofList
          ((c5Books.filter (fun q =>
              decide (rowGet (c5Base.getD i []) c5Meta.id_field =
                rowGet q c5Meta.foreign_field))).map
            (fun q => PVal.pdict (PDict.ofRow q))))) ∧
    (c5Base.map (fun b => (c5Books.filter (fun q =>
        decide (rowGet b c5Meta.id_field = rowGet q c5Meta.foreign_field))).length)).sum =
      c5Books.length :=
  c5_prefetch_partition c5Meta c5Base c5Books (by decide) (by decide)

/-! ### Claim C9 -/

/-- C9 counterexample: with relation key `p__`, the keyword name `a_p__b`
does not start with the relation key, so by the claim it should be qualified
with the base alias (`t.a_p__b`); instead the substring is replaced in the
middle, and the rendered field `a_r.b` carries neither alias as a prefix. -/
theorem c9_counterexample :
    qBuild (some "p") 7 [("a_p__b", PVal.pint 1)] =
      Except.ok ⟨"a_r.b = :a_r_b_1_7", [("a_r_b_1_7", PVal.pint 1)]⟩ ∧
    ("t." : String).data.isPrefixOf ("a_r.b = :a_r_b_1_7" : String).data = false ∧
    ("r." : String).data.isPrefixOf ("a_r.b = :a_r_b_1_7" : String).data = false := by
  decide

/-- C9 (amended): alias routing is decided once, inside `Q.__init__`, by
substring containment of the relation key `related_name ++ "__"`: a keyword
name in which the relation key does not occur at all is prefixed with the
base alias `t.`; a name that starts with the relation key (and contains no
further occurrence) has it replaced by the related alias `r.`; occurrences
elsewhere in the name are also replaced in place.  Later AND/OR combination
concatenates the stored, already-routed expressions verbatim and cannot
change the routing. -/
theorem c9_alias_routing (relName : String) (a b : Cond) :
    (∀ key : String, containsSub (relName ++ "__").data key.data = false →
      routeKey (some (relName ++ "__")) key = "t." ++ key) ∧
    (∀ rest : String, containsSub (relName ++ "__").data rest.data = false →
      routeKey (some (relName ++ "__")) ((relName ++ "__") ++ rest) = "r." ++ rest) ∧
    (Cond.and a b).where_clause =
      "(" ++ a.where_clause ++ " AND " ++ b.where_clause ++ ")" ∧
    (Cond.or a b).where_clause =
      "(" ++ a.where_clause ++ " OR " ++ b.where_clause ++ ")" := by
  refine ⟨?_, ?_, rfl, rfl⟩
  · intro key h
    exact routeKey_no_occur _ _ h
  · intro rest h
    refine routeKey_replace_head _ _ ?_ h
    rw [string_data_append]
    intro hc
    have := List.append_eq_nil.mp hc
    simp at this

/-- C9 witness: the routing applied to the relation name `profile` — a name
without the relation key gets the base alias, a name with the relation key
as its prefix gets the related alias. -/
theorem c9_alias_routing_witness :
    routeKey (some ("profile" ++ "__")) "name" = "t." ++ "name" ∧
    routeKey (some ("profile" ++ "__")) (("profile" ++ "__") ++ "name") =
      "r." ++ "name" := by
  have h := c9_alias_routing "profile" ⟨"x", []⟩ ⟨"y", []⟩
  exact ⟨h.1 "name" (by decide), h.2.1 "name" (by decide)⟩

/-! ### Claim C3 -/

theorem string_ext {a b : String} (h : a.data = b.data) : a = b := by
  cases a
  cases b
  exact congrArg String.mk h

theorem string_append_assoc (a b c : String) : (a ++ b) ++ c = a ++ (b ++ c) := by
  cases a with
  | mk as =>
    cases b with
    | mk bs =>
      cases c with
      | mk cs =>
        show String.mk ((as ++ bs) ++ cs) = String.mk (as ++ (bs ++ cs))
        rw [List.append_assoc]

/-- Splitting `field ++ "__in"` at the first `"__"` recovers `field` and
`"in"` whenever `field` hides no earlier occurrence (no `"__"` inside
`field` and `field` does not end in `"_"`). -/
theorem splitFirstString_in (f : String)
    (h : containsSub ['_', '_'] (f.data ++ ['_']) = false) :
    splitFirstString "__" (f ++ "__in") = some (f, "in") := by
  unfold splitFirstString
  rw [string_data_append]
  rw [show ("__in" : String).data = ['_', '_'] ++ ("in" : String).data from rfl]
  rw [show ("__" : String).data = ['_', '_'] from rfl]
  rw [← List.append_assoc]
  rw [splitFirst_underscore f.data ("in" : String).data h]
  rfl

/-- The parameter name rendered for the `IN` item at field index `idx`. -/
def inFieldName (field : String) (idx secret : Nat) : String :=
  stringReplace (("t." ++ field) ++ "_" ++ toString idx ++ "_" ++ toString secret)
    "." "_"

/-- The three behaviours of one `field__in` keyword in the current builder:
a non-list value and an empty list raise `InvalidINClauseValueError`; a
non-empty list renders `t.<field> IN (...)` with one placeholder per
element. -/
theorem processItem_in_cases (field : String) (secret idx : Nat) (v : PVal)
    (h : containsSub ['_', '_'] (("t." ++ field).data ++ ['_']) = false) :
    (v.isList = false →
      processItem Option.none secret idx (field ++ "__in") v =
        Except.error (BuildError.invalidINClauseValue
          ("IN clause value for \"" ++ ("t." ++ field) ++
            "\" must be supplied with a \"list\" type and not \"" ++
            v.pyTypeName ++ "\" type."))) ∧
    (processItem Option.none secret idx (field ++ "__in") (PVal.plist PList.nil) =
      Except.error (BuildError.invalidINClauseValue
        ("IN clause value for \"" ++ ("t." ++ field) ++
          "\" must be supplied with a non-empty \"list\"."))) ∧
    (∀ xs : PList, xs ≠ PList.nil →
      processItem Option.none secret idx (field ++ "__in") (PVal.plist xs) =
        Except.ok (("t." ++ field) ++ " IN (" ++
            ",".intercalate
              (inPlaceholders (inFieldName field idx secret) (PList.length xs)) ++ ")",
          inParams (inFieldName field idx secret) (PList.toList xs))) := by
  have hkey : routeKey Option.none (field ++ "__in") = ("t." ++ field) ++ "__in" := by
    show "t." ++ (field ++ "__in") = ("t." ++ field) ++ "__in"
    rw [string_append_assoc]
  have hsplit := splitFirstString_in ("t." ++ field) h
  have hop : lookupOperator "in" = some "IN" := rfl
  refine ⟨?_, ?_, ?_⟩
  · intro hv
    cases v <;> simp_all [processItem, hkey, hsplit, hop, PVal.isList, inFieldName]
  · simp [processItem, hkey, hsplit, hop, PList.length, inFieldName]
  · intro xs hxs
    cases xs with
    | nil => exact absurd rfl hxs
    | cons x rest =>
      simp [processItem, hkey, hsplit, hop, PList.length, inFieldName]

/-- The legacy builder's `field__in` behaviour: a non-list value raises the
IN-value error, but an empty list is rendered as `field IN ()` with no
placeholders and no error. -/
theorem processItemLegacy_in_cases (field : String) (secret : Nat) (v : PVal)
    (h : containsSub ['_', '_'] (field.data ++ ['_']) = false) :
    (v.isList = false →
      processItemLegacy secret (field ++ "__in") v =
        Except.error (BuildError.invalidINClauseValue
          ("IN clause value for \"" ++ field ++
            "\" must be supplied with a \"list\" type and not \"" ++
            v.pyTypeName ++ "\" type"))) ∧
    (processItemLegacy secret (field ++ "__in") (PVal.plist PList.nil) =
      Except.ok (field ++ " IN ()", [])) := by
  have hsplit := splitFirstString_in field h
  have hop : lookupOperator "in" = some "IN" := rfl
  refine ⟨?_, ?_⟩
  · intro hv
    cases v <;> simp_all [processItemLegacy, hsplit, hop, PVal.isList]
  · simp only [processItemLegacy, hsplit, hop, PList.length, inPlaceholders,
      inParams, PList.toList, List.range_zero, List.map_nil, List.enum_nil]
    rw [show (",".intercalate ([] : List String)) = "" from rfl]
    simp only [if_true]
    have hstr : field ++ " IN (" ++ "" ++ ")" = field ++ " IN ()" := by
      apply string_ext
      simp only [string_data_append]
      simp
    rw [hstr]

/-- C3 counterexample: in the legacy builder (`src/fastpg/utils.py`),
constructing `Q(id__in=[])` does not fail — it renders `id IN ()` with an
empty parameter map, so "an empty list also fails with
`InvalidINClauseValueError`" is false for that generation of the builder. -/
theorem c3_counterexample :
    qBuildLegacy 3 [("id__in", PVal.plist PList.nil)] =
      Except.ok ⟨"id IN ()", []⟩ := by
  decide

/-- C3 (amended): in the current builder (`test_project/fastpg/utils.py`),
for every construction containing `field__in = v` (with the earlier keyword
items building successfully and `field` hiding no `"__"` of its own): a
non-list `v` raises `InvalidINClauseValueError`, an empty list also raises
it, and a non-empty list renders `t.<field> IN (...)` with exactly one named
placeholder per element, bound in order.  The legacy builder raises only for
a non-list value and renders `field IN ()` for an empty list. -/
theorem c3_in_clause (field : String) (v : PVal) (secret : Nat)
    (pre post : List (String × PVal)) (st : BuildState)
    (hpre : qBuildAux Option.none secret ⟨0, [], []⟩ pre = Except.ok st)
    (hfield : containsSub ['_', '_'] (("t." ++ field).data ++ ['_']) = false)
    (hfield2 : containsSub ['_', '_'] (field.data ++ ['_']) = false) :
    (v.isList = false →
      qBuild Option.none secret (pre ++ (field ++ "__in", v) :: post) =
        Except.error (BuildError.invalidINClauseValue
          ("IN clause value for \"" ++ ("t." ++ field) ++
            "\" must be supplied with a \"list\" type and not \"" ++
            v.pyTypeName ++ "\" type."))) ∧
    (v = PVal.plist PList.nil →
      qBuild Option.none secret (pre ++ (field ++ "__in", v) :: post) =
        Except.error (BuildError.invalidINClauseValue
          ("IN clause value for \"" ++ ("t." ++ field) ++
            "\" must be supplied with a non-empty \"list\"."))) ∧
    (∀ xs, v = PVal.plist xs → xs ≠ PList.nil →
      qBuildAux Option.none secret ⟨0, [], []⟩ (pre ++ (field ++ "__in", v) :: post) =
        qBuildAux Option.none secret
          ⟨st.fieldIdx + 1,
            st.conditions ++ [("t." ++ field) ++ " IN (" ++
              ",".intercalate (inPlaceholders
                (inFieldName field (st.fieldIdx + 1) secret) (PList.length xs)) ++ ")"],
            (inParams (inFieldName field (st.fieldIdx + 1) secret)
                (PList.toList xs)).foldl
              (fun acc q => rowSetItem acc q.1 q.2) st.params⟩ post ∧
      (inPlaceholders (inFieldName field (st.fieldIdx + 1) secret)
          (PList.length xs)).length = PList.length xs ∧
      (inParams (inFieldName field (st.fieldIdx + 1) secret)
          (PList.toList xs)).map Prod.snd = PList.toList xs) ∧
    (v.isList = false →
      processItemLegacy secret (field ++ "__in") v =
        Except.error (BuildError.invalidINClauseValue
          ("IN clause value for \"" ++ field ++
            "\" must be supplied with a \"list\" type and not \"" ++
            v.pyTypeName ++ "\" type"))) ∧
    (processItemLegacy secret (field ++ "__in") (PVal.plist PList.nil) =
      Except.ok (field ++ " IN ()", [])) := by
  have hcases := processItem_in_cases field secret (st.fieldIdx + 1) v hfield
  have hlegacy := processItemLegacy_in_cases field secret v hfield2
  refine ⟨?_, ?_, ?_, hlegacy.1, hlegacy.2⟩
  · intro hv
    rw [qBuild]
    rw [show (Option.map (fun rn => rn ++ "__") (Option.none : Option String)) =
      (Option.none : Option String) from rfl]
    rw [qBuildAux_append, hpre]
    simp only [qBuildAux]
    rw [hcases.1 hv]
  · intro hv
    subst hv
    have h2 := (processItem_in_cases field secret (st.fieldIdx + 1)
      (PVal.plist PList.nil) hfield).2.1
    rw [qBuild]
    rw [show (Option.map (fun rn => rn ++ "__") (Option.none : Option String)) =
      (Option.none : Option String) from rfl]
    rw [qBuildAux_append, hpre]
    simp only [qBuildAux]
    rw [h2]
  · intro xs hv hxs
    subst hv
    have h3 := (processItem_in_cases field secret (st.fieldIdx + 1)
      (PVal.plist xs) hfield).2.2 xs hxs
    refine ⟨?_, ?_, ?_⟩
    · rw [qBuildAux_append, hpre]
      simp only [qBuildAux]
      rw [h3]
    · simp [inPlaceholders]
    · rw [inParams, List.map_map]
      have : (Prod.snd ∘ fun q : Nat × PVal =>
          (inFieldName field (st.fieldIdx + 1) secret ++ "_" ++ toString q.1, q.2)) =
          Prod.snd := funext (fun q => rfl)
      rw [this, List.enum_map_snd]

/-- The state after the first keyword (`name="A"`) of the C3 witness
construction. -/
def c3St : BuildState :=
  ⟨1, ["t.name = :t_name_1_5"], [("t_name_1_5", PVal.pstr "A")]⟩

/-- The non-empty list of the C3 witness. -/
def c3Xs : PList := PList.ofList [PVal.pint 1, PVal.pint 2]

/-- C3 witness: the amended claim applied to the construction
`Q(name="A", id__in=[1, 2])` with discriminator 5. -/
theorem c3_in_clause_witness :
    qBuildAux Option.none 5 ⟨0, [], []⟩
        ([("name", PVal.pstr "A")] ++ ("id" ++ "__in", PVal.plist c3Xs) :: []) =
      qBuildAux Option.none 5
        ⟨c3St.fieldIdx + 1,
          c3St.conditions ++ [("t." ++ "id") ++ " IN (" ++
            ",".intercalate (inPlaceholders
              (inFieldName "id" (c3St.fieldIdx + 1) 5) (PList.length c3Xs)) ++ ")"],
          (inParams (inFieldName "id" (c3St.fieldIdx + 1) 5)
              (PList.toList c3Xs)).foldl
            (fun acc q => rowSetItem acc q.1 q.2) c3St.params⟩ [] ∧
    (inPlaceholders (inFieldName "id" (c3St.fieldIdx + 1) 5)
        (PList.length c3Xs)).length = PList.length c3Xs ∧
    (inParams (inFieldName "id" (c3St.fieldIdx + 1) 5)
        (PList.toList c3Xs)).map Prod.snd = PList.toList c3Xs :=
  (c3_in_clause "id" (PVal.plist c3Xs) 5 [("name", PVal.pstr "A")] [] c3St
      (by decide) (by decide) (by decide)).2.2.1 c3Xs rfl (by decide)

end FastPG
